import Mathlib

/-
Verification development for the release-bot repository.

The development shallowly embeds the two source files under verification,
release_bot/releasebot.py (the ReleaseBot coordination engine) and
release_bot/fedora.py (the Fedora dist-git adapter), as executable Lean
functions.  External collaborators (shell commands, the Github/PyPi SDK
adapters, the version parser from release_bot/utils.py) are not part of the
sources under src/; they are modelled from the specification as oracle
fields of an environment record.  Every modelled function returns, besides
its value, the list of observable events (adapter calls, log lines,
issue/PR mutations) it performed, so that temporal and error-handling
properties can be stated about the traces.
-/

/-- Semantic version with the major.minor.patch core.  The repository uses
the third-party semantic_version library; the claims only depend on the
total lexicographic order of the version core, which is what we model.
Both the strict constructor Version(s) and the lenient Version.coerce(s)
are modelled as the identity on already-structured versions. -/
structure SemVer where
  major : Nat
  minor : Nat
  patch : Nat
deriving DecidableEq, Repr

/-- Strict lexicographic comparison of semantic versions. -/
def SemVer.blt (a b : SemVer) : Bool :=
  if a.major < b.major then true
  else if b.major < a.major then false
  else if a.minor < b.minor then true
  else if b.minor < a.minor then false
  else decide (a.patch < b.patch)

/-- Non-strict lexicographic comparison of semantic versions. -/
def SemVer.ble (a b : SemVer) : Bool :=
  SemVer.blt a b || decide (a = b)

/-- Rendering of a version, used in log and comment messages. -/
def verStr (v : SemVer) : String :=
  toString v.major ++ "." ++ toString v.minor ++ "." ++ toString v.patch

/-- Models the Python str.lower() method on the ASCII branch names the
engine deals with, defined structurally so that proofs can evaluate it. -/
def strLower (s : String) : String :=
  String.mk (s.data.map Char.toLower)

/-- Result of a Python call that can raise ReleaseException: either the
exception escaped (exc) or the call returned a value. -/
inductive PyRes (α : Type) where
  | exc : PyRes α
  | ok : α → PyRes α
deriving DecidableEq, Repr

/-- Functorial action on the returned value of a PyRes. -/
def PyRes.map {α β : Type} (f : α → β) : PyRes α → PyRes β
  | .exc => .exc
  | .ok a => .ok (f a)

/- ------------------------------------------------------------------ -/
/- Fedora adapter (release_bot/fedora.py)                              -/
/- ------------------------------------------------------------------ -/

/-- Observable events of the Fedora adapter: one event per external
command invocation or log line. -/
inductive FedoraEv where
  | kinit
  | clone
  | switchBranch (b : String)
  | merge (b : String)
  | sources (b : String)
  | updateSpec (b : String)
  | lint (b : String)
  | spectool (b : String)
  | newSources (b : String) (files : List String)
  | commit (b : String)
  | push (b : String)
  | build (b : String)
  | logWarning (msg : String)
  | logDebug (msg : String)
deriving DecidableEq, Repr

/-- Oracle environment for the Fedora adapter: the outcome of every
external command, per branch, and the directory listings around the
spectool invocation. -/
structure FedoraEnv where
  fasUsername : String
  kinitOk : Bool
  cloneOk : Bool
  switchOk : String → Bool
  mergeOk : String → Bool
  sourcesOk : String → Bool
  lintOk : String → Bool
  spectoolOk : String → Bool
  dirBefore : String → List String
  dirAfter : String → List String
  newSourcesOk : String → Bool
  commitOk : String → Bool
  pushOk : String → Bool
  buildOk : String → Bool

/-- Modelled from the spec: shell_command from release_bot/utils.py is not
under src/.  Per the spec (sections 4.3, 6 and 9), every packaging command
returns success or failure; with the Fatal policy (the fail=True argument
threaded by fedora.py) a failure propagates as a ReleaseException, with the
BestEffort policy (fail=False) a failure is logged and reported as False. -/
def shellCommand (ok : Bool) (fail : Bool) : PyRes Bool :=
  if ok then .ok true
  else if fail then .exc
  else .ok false

/-- Models Fedora.init_ticket (fedora.py lines 127 to 136).  With no FAS
username configured it returns False without running anything; otherwise
it runs a single kinit invocation (keytab or renewal variant, both a
single shell_command call with fail=False) whose outcome is the oracle. -/
def initTicket (env : FedoraEnv) : Bool :=
  if env.fasUsername = "" then false
  else
    match shellCommand env.kinitOk false with
    | .ok b => b
    | .exc => false

/-- Files that appear in the directory listing after fedpkg_spectool and
were absent before it (fedora.py lines 162 to 174): the new sources. -/
def newFiles (env : FedoraEnv) (b : String) : List String :=
  (env.dirAfter b).filter (fun f => !((env.dirBefore b).contains f))

/-- Models Fedora.update_package (fedora.py lines 138 to 193).  The fail
flag is True exactly when the branch name lowercases to master; each step
is a shell_command with that flag.  update_spec (from utils.py, not under
src/) is modelled from the spec as the non-failing patch-spec step. -/
def updatePackage (env : FedoraEnv) (b : String) : PyRes Bool × List FedoraEv :=
  let fail := strLower b == "master"
  match shellCommand (env.sourcesOk b) fail with
  | .exc => (.exc, [.sources b])
  | .ok false => (.ok false, [.sources b])
  | .ok true =>
    let tr1 := [FedoraEv.sources b, FedoraEv.updateSpec b, FedoraEv.lint b]
    match shellCommand (env.lintOk b) fail with
    | .exc => (.exc, tr1)
    | .ok false => (.ok false, tr1)
    | .ok true =>
      let tr2 := tr1 ++ [FedoraEv.spectool b]
      match shellCommand (env.spectoolOk b) fail with
      | .exc => (.exc, tr2)
      | .ok false => (.ok false, tr2)
      | .ok true =>
        if (newFiles env b).isEmpty then
          (.ok false, tr2 ++ [.logWarning "There are no new sources, will not continue releasing to fedora"])
        else
          let tr3 := tr2 ++ [FedoraEv.newSources b (newFiles env b)]
          match shellCommand (env.newSourcesOk b) fail with
          | .exc => (.exc, tr3)
          | .ok false => (.ok false, tr3)
          | .ok true =>
            let tr4 := tr3 ++ [FedoraEv.commit b]
            match shellCommand (env.commitOk b) fail with
            | .exc => (.exc, tr4)
            | .ok false => (.ok false, tr4)
            | .ok true =>
              let tr5 := tr4 ++ [FedoraEv.push b]
              match shellCommand (env.pushOk b) fail with
              | .exc => (.exc, tr5)
              | .ok false => (.ok false, tr5)
              | .ok true =>
                let tr6 := tr5 ++ [FedoraEv.build b]
                match shellCommand (env.buildOk b) fail with
                | .exc => (.exc, tr6)
                | .ok false => (.ok false, tr6)
                | .ok true => (.ok true, tr6)

/-- Body of the per-branch loop of Fedora.release (fedora.py lines 225 to
235): best-effort switch, fast-forward-only merge with a from-scratch
update_package fallback, then push and build, everything with fail=False. -/
def branchStep (env : FedoraEnv) (b : String) : PyRes Unit × List FedoraEv :=
  match shellCommand (env.switchOk b) false with
  | .exc => (.exc, [.switchBranch b])
  | .ok false => (.ok (), [.switchBranch b])
  | .ok true =>
    match shellCommand (env.mergeOk b) false with
    | .exc => (.exc, [.switchBranch b, .merge b])
    | .ok false =>
      ((updatePackage env b).1.map (fun _ => ()),
       [FedoraEv.switchBranch b, FedoraEv.merge b,
        FedoraEv.logDebug ("Trying to make the changes on branch " ++ b ++ " from scratch")] ++
       (updatePackage env b).2)
    | .ok true =>
      match shellCommand (env.pushOk b) false with
      | .exc => (.exc, [.switchBranch b, .merge b, .push b])
      | .ok false => (.ok (), [.switchBranch b, .merge b, .push b])
      | .ok true => (.ok (), [.switchBranch b, .merge b, .push b, .build b])

/-- Iteration of branchStep over the configured fedora_branches list. -/
def branchLoop (env : FedoraEnv) : List String → PyRes Unit × List FedoraEv
  | [] => (.ok (), [])
  | b :: rest =>
    match branchStep env b with
    | (.exc, tr) => (.exc, tr)
    | (.ok _, tr) => ((branchLoop env rest).1, tr ++ (branchLoop env rest).2)

/-- Models Fedora.release (fedora.py lines 195 to 239): the one kerberos
ticket acquisition, the clone (fail=True), the switch to master
(fail=True), the mandatory master update, then the best-effort secondary
branch loop.  The clone and master switch use the Fatal policy, so their
failure branches that return False in the Python text are unreachable but
kept for faithfulness. -/
def fedoraRelease (env : FedoraEnv) (branches : List String) : PyRes Bool × List FedoraEv :=
  if initTicket env = false then
    (.ok false, [.kinit, .logWarning "Cannot obtain a valid kerberos ticket, skipping fedora release"])
  else
    match shellCommand env.cloneOk true with
    | .exc => (.exc, [.kinit, .clone])
    | .ok false => (.ok false, [.kinit, .clone])
    | .ok true =>
      match shellCommand (env.switchOk "master") true with
      | .exc => (.exc, [.kinit, .clone, .switchBranch "master"])
      | .ok false => (.ok false, [.kinit, .clone, .switchBranch "master"])
      | .ok true =>
        match updatePackage env "master" with
        | (.exc, trm) => (.exc, [FedoraEv.kinit, FedoraEv.clone, FedoraEv.switchBranch "master"] ++ trm)
        | (.ok false, trm) => (.ok false, [FedoraEv.kinit, FedoraEv.clone, FedoraEv.switchBranch "master"] ++ trm)
        | (.ok true, trm) =>
          match branchLoop env branches with
          | (.exc, trb) =>
            (.exc, [FedoraEv.kinit, FedoraEv.clone, FedoraEv.switchBranch "master"] ++ trm ++ trb)
          | (.ok _, trb) =>
            (.ok true, [FedoraEv.kinit, FedoraEv.clone, FedoraEv.switchBranch "master"] ++ trm ++ trb)

/- ------------------------------------------------------------------ -/
/- ReleaseBot coordination engine (release_bot/releasebot.py)          -/
/- ------------------------------------------------------------------ -/

/-- The two source-forge services distinguished by which_service. -/
inductive GitService where
  | Github
  | Pagure
deriving DecidableEq, Repr

/-- Display name of a service, used in messages. -/
def serviceName : GitService → String
  | .Github => "Github"
  | .Pagure => "Pagure"

/-- Already-released notice of make_new_github_release. -/
def ghAlreadyMsg (s : GitService) (v : SemVer) : String :=
  verStr v ++ " has already been released on " ++ serviceName s

/-- Success notification of the Github release handler. -/
def ghOkMsg (s : GitService) (v : SemVer) : String :=
  "I just released version " ++ verStr v ++ " on " ++ serviceName s

/-- Failure notification of the Github release handler. -/
def ghFailMsg (s : GitService) (v : SemVer) : String :=
  "I just failed to release version " ++ verStr v ++ " on " ++ serviceName s

/-- Already-released notice of make_new_pypi_release. -/
def pypiAlreadyMsg (v : SemVer) : String :=
  "Version " ++ verStr v ++ " or higher version has already been released on PyPi"

/-- Success notification of the PyPi release handler. -/
def pypiOkMsg (dry : Bool) (v : SemVer) : String :=
  if dry then "I would have released version " ++ verStr v ++ " on PyPI now."
  else "I just released version " ++ verStr v ++ " on PyPI"

/-- Failure notification of the PyPi release handler. -/
def pypiFailMsg (v : SemVer) : String :=
  "I just failed to release version " ++ verStr v ++ " on PyPI"

/-- Success notification of the pr_handler closure. -/
def prOkMsg (v : SemVer) : String :=
  "I just made a PR request for a release version " ++ verStr v

/-- Failure notification of the pr_handler closure. -/
def prFailMsg (v : SemVer) : String :=
  "I just failed to make a PR request for a release version " ++ verStr v

/-- Multiplicity error of find_open_release_issues. -/
def multipleIssuesMsg : String :=
  "Multiple release issues are open, please reduce them to one"

/-- Permission warning of find_open_release_issues. -/
def noPermissionMsg : String :=
  "User has no permission to modify issue"

/-- Discovery notice of find_open_release_issues. -/
def foundIssueMsg (v : SemVer) : String :=
  "Found new release issue with version " ++ verStr v

/-- Already-released warning of make_release_pull_request. -/
def alreadyPrMsg (latest : SemVer) : String :=
  "Version " ++ verStr latest ++ " is already released and this issue is ignored."

/-- An open issue as the engine observes it: its number, the version-like
token extractable from its title (none when the title holds no valid
version), and the oracle answer of project.can_close_issue for the bot. -/
structure Issue where
  id : Nat
  titleVersion : Option SemVer
  botCanClose : Bool
deriving DecidableEq, Repr

/-- A merged pull request as the engine observes it. -/
structure MergedPr where
  id : Nat
  titleVersion : Option SemVer
  author : String
deriving DecidableEq, Repr

/-- Modelled from the spec: the ReleaseRecord (new_release.py is not under
src/).  Spec section 3 lists its fields; we keep the ones the engine under
verification reads or writes. -/
structure NewRelease where
  version : SemVer
  commitish : String
  prNumber : Option Nat
  pypi : Bool
  triggerOnIssue : Bool
  labels : Option (List String)
deriving DecidableEq, Repr

/-- Modelled from the spec: the PullRequestRecord (new_pr.py is not under
src/), spec section 3. -/
structure NewPR where
  version : SemVer
  previousVersion : SemVer
  issueNumber : Nat
  labels : Option (List String)
deriving DecidableEq, Repr

/-- Mutable state the coordinator threads through a cycle: the two records,
the comment buffer github.comment, and the latest released versions the
two adapters report (modelled adapter state; a successful release makes
the adapter report that version afterwards, spec sections 4.2 and 8). -/
structure BotState where
  ghLatest : SemVer
  pypiLatest : SemVer
  comment : List String
  newRelease : NewRelease
  newPr : NewPR
deriving DecidableEq, Repr

/-- Oracle environment of one polling cycle: configuration flags, what the
source-forge reports, and the outcome of every fallible external call. -/
structure BotEnv where
  dryRun : Bool
  service : GitService
  openedIssues : List Issue
  mergedPrs : List MergedPr
  loadConfRaises : Bool
  confPypi : Bool
  confTrigger : Bool
  confLabels : Option (List String)
  ghLatestRaises : Bool
  pypiLatestRaises : Bool
  ghMakeNewRelease : PyRes Bool
  makeReleasePr : PyRes Bool
  pypiRelease : PyRes Bool
  repoOk : Bool
deriving DecidableEq, Repr

/-- Observable events of one engine cycle. -/
inductive BotEv where
  | gitPull
  | logDebug (msg : String)
  | logInfo (msg : String)
  | logWarning (msg : String)
  | logError (msg : String)
  | issueComment (issue : Nat) (msg : String)
  | issueClose (issue : Nat)
  | addIssueLabels (issue : Nat) (labels : List String)
  | makeReleasePr
  | ghRelease (v : SemVer) (released : Bool)
  | pypiUpload (v : SemVer) (released : Bool)
  | gitFetchTags
  | gitCheckout (ref : String)
  | prComment (pr : Option Nat) (msg : String)
  | sleep
deriving DecidableEq, Repr

/-- Modelled from the spec: process_version_from_title from
release_bot/utils.py is not under src/.  Per spec section 4.1
(VersionMatcher) a title matches exactly when it holds a version-like
token that strictly exceeds the reference version; malformed or absent
version text is no match. -/
def processVersionFromTitle (titleVersion : Option SemVer) (reference : SemVer) :
    Bool × Option SemVer :=
  match titleVersion with
  | none => (false, none)
  | some v => if reference.blt v then (true, some v) else (false, none)

/-- Insertion into the release_issues dict keyed by version (python dict
semantics: an existing key keeps its position and gets the new value). -/
def upsertIssue (k : SemVer) (i : Issue) : List (SemVer × Issue) → List (SemVer × Issue)
  | [] => [(k, i)]
  | (k2, i2) :: rest =>
    if k2 = k then (k2, i) :: rest else (k2, i2) :: upsertIssue k i rest

/-- The issue-scanning loop of find_open_release_issues (releasebot.py
lines 106 to 114), processed left to right with an accumulator exactly as
the Python for loop fills the release_issues dict. -/
def collectAux (latest : SemVer) (acc : List (SemVer × Issue)) (evs : List BotEv) :
    List Issue → List (SemVer × Issue) × List BotEv
  | [] => (acc, evs)
  | issue :: rest =>
    match processVersionFromTitle issue.titleVersion latest with
    | (true, some v) =>
      if issue.botCanClose then
        collectAux latest (upsertIssue v issue acc)
          (evs ++ [.logInfo (foundIssueMsg v)]) rest
      else
        collectAux latest acc (evs ++ [.logWarning noPermissionMsg]) rest
    | _ => collectAux latest acc evs rest

/-- The release_issues dict and the log events the scan produces. -/
def collectReleaseIssues (latest : SemVer) (issues : List Issue) :
    List (SemVer × Issue) × List BotEv :=
  collectAux latest [] [] issues

/-- Label choice of find_open_release_issues (releasebot.py lines 121 to
125): labels from the release record on Github, none on Pagure. -/
def serviceLabels (s : GitService) (labels : Option (List String)) : Option (List String) :=
  match s with
  | .Github => labels
  | .Pagure => none

/-- Models ReleaseBot.find_open_release_issues (releasebot.py lines 95 to
136).  The initial latest_release query can raise; the multiplicity check
compares the length of the version-keyed dict; a single entry updates the
PullRequestRecord and answers True. -/
def findOpenReleaseIssues (env : BotEnv) (st : BotState) :
    PyRes Bool × BotState × List BotEv :=
  if env.ghLatestRaises then (.exc, st, [])
  else
    let latest := st.ghLatest
    let pair :=
      if env.openedIssues.isEmpty then
        (([] : List (SemVer × Issue)), [BotEv.logDebug "No more open issues found"])
      else collectReleaseIssues latest env.openedIssues
    let ris := pair.1
    let evs := pair.2
    if ris.length > 1 then
      (.ok false, st, evs ++ [.logError multipleIssuesMsg])
    else
      match ris with
      | [(v, issue)] =>
        (.ok true,
         { st with newPr := { st.newPr with
             version := v, issueNumber := issue.id,
             labels := serviceLabels env.service st.newRelease.labels } },
         evs)
      | _ => (.ok false, st, evs)

/-- The PR-scanning loop of find_newest_release_pull_request (releasebot.py
lines 151 to 163): the first merged PR whose title matches. -/
def findMatchingPr (latest : SemVer) : List MergedPr → Option (SemVer × MergedPr)
  | [] => none
  | pr :: rest =>
    match processVersionFromTitle pr.titleVersion latest with
    | (true, some v) => some (v, pr)
    | _ => findMatchingPr latest rest

/-- Models ReleaseBot.find_newest_release_pull_request (releasebot.py lines
138 to 163). -/
def findNewestReleasePullRequest (env : BotEnv) (st : BotState) :
    PyRes Bool × BotState × List BotEv :=
  if env.ghLatestRaises then (.exc, st, [])
  else
    if env.mergedPrs.isEmpty then (.ok false, st, [.logDebug "No merged release PR found"])
    else
      match findMatchingPr st.ghLatest env.mergedPrs with
      | some (v, pr) =>
        (.ok true,
         { st with newRelease := { st.newRelease with
             version := v, commitish := "master", prNumber := some pr.id } },
         [.logInfo ("Found merged release PR with version " ++ verStr v)])
      | none => (.ok false, st, [])

/-- Models ReleaseBot.load_release_conf (releasebot.py lines 75 to 93): the
file fetches and YAML parsing are external (github.py, configuration.py
are not under src/ and are modelled from the spec as an oracle that either
raises or yields the configured values); the record update of lines 86 to
93 stores them in the ReleaseRecord. -/
def loadReleaseConf (env : BotEnv) (st : BotState) : PyRes Unit × BotState × List BotEv :=
  if env.loadConfRaises then (.exc, st, [])
  else
    (.ok (),
     { st with newRelease := { st.newRelease with
         pypi := env.confPypi, triggerOnIssue := env.confTrigger, labels := env.confLabels } },
     [])

/-- Models the pr_handler closure of make_release_pull_request
(releasebot.py lines 171 to 189): log the outcome, post one issue comment
(the comment buffer is backed up, replaced and restored around the post,
so its net state change is none), and close the issue only on success. -/
def prHandler (st : BotState) (success : Bool) : BotState × List BotEv :=
  let v := st.newPr.version
  let msg := if success then prOkMsg v else prFailMsg v
  let logEv := if success then BotEv.logInfo msg else BotEv.logError msg
  (st,
   [logEv, BotEv.issueComment st.newPr.issueNumber msg] ++
   (if success then [BotEv.issueClose st.newPr.issueNumber, BotEv.logDebug "Closed issue"] else []))

/-- Models ReleaseBot.make_release_pull_request (releasebot.py lines 165 to
212): the latest_release query, the already-released guard, the repository
check that raises inside the try, the make_release_pr call (an external
github.py call modelled from the spec as an oracle that raises, succeeds
or reports failure) and the pr_handler outcomes. -/
def makeReleasePullRequest (env : BotEnv) (st : BotState) :
    PyRes Bool × BotState × List BotEv :=
  if env.ghLatestRaises then (.exc, st, [])
  else
    let latest := st.ghLatest
    let st1 := { st with newPr := { st.newPr with previousVersion := latest } }
    if SemVer.ble st1.newPr.version latest then
      (.ok false, st1,
       [.logWarning (alreadyPrMsg latest)])
    else
      let evs0 :=
        if env.dryRun then []
        else [BotEv.logInfo ("Making a new PR for release of version " ++ verStr st1.newPr.version ++ " based on the issue.")]
      if env.repoOk = false then
        let (st2, hevs) := prHandler st1 false
        (.exc, st2, evs0 ++ hevs)
      else
        match env.makeReleasePr with
        | .exc =>
          let (st2, hevs) := prHandler st1 false
          (.exc, st2, evs0 ++ [BotEv.makeReleasePr] ++ hevs)
        | .ok true =>
          let (st2, hevs) := prHandler st1 true
          (.ok true, st2, evs0 ++ [BotEv.makeReleasePr] ++ hevs)
        | .ok false => (.ok false, st1, evs0 ++ [BotEv.makeReleasePr])

/-- Models ReleaseBot.make_new_github_release (releasebot.py lines 214 to
240): the wrapped latest_release query, the idempotency guard, the dry-run
early return, and the make_new_release adapter call (github.py is not
under src/; per the spec a successful release makes the adapter report the
released version as latest afterwards). -/
def makeNewGithubRelease (env : BotEnv) (st : BotState) :
    PyRes (Option NewRelease) × BotState × List BotEv :=
  if env.ghLatestRaises then (.exc, st, [])
  else if SemVer.ble st.newRelease.version st.ghLatest then
    (.ok (some st.newRelease), st,
     [.logInfo (ghAlreadyMsg env.service st.newRelease.version)])
  else if env.dryRun then (.ok none, st, [])
  else
    match env.ghMakeNewRelease with
    | .exc =>
      let msg := ghFailMsg env.service st.newRelease.version
      (.exc, { st with comment := st.comment ++ [msg] },
       [.ghRelease st.newRelease.version false, .logError msg])
    | .ok true =>
      let msg := ghOkMsg env.service st.newRelease.version
      (.ok (some st.newRelease),
       { st with ghLatest := st.newRelease.version, comment := st.comment ++ [msg] },
       [.ghRelease st.newRelease.version true, .logInfo msg])
    | .ok false => (.ok (some st.newRelease), st, [.ghRelease st.newRelease.version false])

/-- Models ReleaseBot.make_new_pypi_release (releasebot.py lines 242 to
275): the pypi flag check, the latest_version query, the idempotency
guard, the tag checkout, the pypi.release call (pypi.py is not under src/;
per the spec a successful upload makes the adapter report the version as
latest afterwards) and the finally-checkout of master. -/
def makeNewPypiRelease (env : BotEnv) (st : BotState) :
    PyRes Bool × BotState × List BotEv :=
  if st.newRelease.pypi = false then (.ok false, st, [.logDebug "Skipping PyPi release"])
  else if env.pypiLatestRaises then (.exc, st, [])
  else if SemVer.ble st.newRelease.version st.pypiLatest then
    (.ok false, st,
     [.logInfo (pypiAlreadyMsg st.newRelease.version)])
  else
    let v := st.newRelease.version
    let evs0 := [BotEv.gitFetchTags, BotEv.gitCheckout (verStr v)]
    match env.pypiRelease with
    | .ok false => (.ok false, st, evs0 ++ [.pypiUpload v false, .gitCheckout "master"])
    | .ok true =>
      let msg := pypiOkMsg env.dryRun v
      (.ok true, { st with pypiLatest := v, comment := st.comment ++ [msg] },
       evs0 ++ [.pypiUpload v true, .logInfo msg, .gitCheckout "master"])
    | .exc =>
      let msg := pypiFailMsg v
      (.exc, { st with comment := st.comment ++ [msg] },
       evs0 ++ [.pypiUpload v false, .logError msg, .gitCheckout "master"])

/-- The release path of the existing-PR branch of the cycle (releasebot.py
lines 287 to 291): the Github release, then, only when that call returned
without raising, the PyPi release. -/
def ghThenPypi (env : BotEnv) (st : BotState) : PyRes Unit × BotState × List BotEv :=
  match makeNewGithubRelease env st with
  | (.exc, st1, e1) => (.exc, st1, e1)
  | (.ok _, st1, e1) =>
    match makeNewPypiRelease env st1 with
    | (.exc, st2, e2) => (.exc, st2, e1 ++ e2)
    | (.ok _, st2, e2) => (.ok (), st2, e1 ++ e2)

/-- The merged-PR part of the first guarded block: look for a merged
release PR and, when found, run the release path. -/
def releaseStage (env : BotEnv) (st : BotState) : BotState × List BotEv :=
  match findNewestReleasePullRequest env st with
  | (.exc, st2, e2) => (st2, e2 ++ [.logError "ReleaseException"])
  | (.ok false, st2, e2) => (st2, e2)
  | (.ok true, st2, e2) =>
    match ghThenPypi env st2 with
    | (.exc, st3, e3) => (st3, e2 ++ e3 ++ [.logError "ReleaseException"])
    | (.ok _, st3, e3) => (st3, e2 ++ e3)

/-- First guarded block of the cycle (releasebot.py lines 284 to 293):
load the release configuration, look for a merged release PR and run the
release path; a ReleaseException anywhere in the block is caught and
logged there. -/
def cycleBlock1 (env : BotEnv) (st : BotState) : BotState × List BotEv :=
  match loadReleaseConf env st with
  | (.exc, st1, e1) => (st1, e1 ++ [.logError "ReleaseException"])
  | (.ok _, st1, e1) =>
    ((releaseStage env st1).1, e1 ++ (releaseStage env st1).2)

/-- The issue part of the second guarded block: find the qualifying open
issue, apply labels when configured and open the release PR. -/
def issueStage (env : BotEnv) (st : BotState) : BotState × List BotEv :=
  match findOpenReleaseIssues env st with
  | (.exc, st1, e1) => (st1, e1 ++ [.logError "ReleaseException"])
  | (.ok false, st1, e1) => (st1, e1)
  | (.ok true, st1, e1) =>
    let e2 : List BotEv :=
      match st1.newRelease.labels with
      | some ls => [BotEv.addIssueLabels st1.newPr.issueNumber ls]
      | none => []
    match makeReleasePullRequest env st1 with
    | (.exc, st3, e3) => (st3, e1 ++ e2 ++ e3 ++ [.logError "ReleaseException"])
    | (.ok _, st3, e3) => (st3, e1 ++ e2 ++ e3)

/-- Second guarded block of the cycle (releasebot.py lines 298 to 305):
when issue triggering is configured and exactly one qualifying open issue
is found, apply labels when configured and open the release PR; a
ReleaseException in the block is caught and logged there. -/
def cycleBlock2 (env : BotEnv) (st : BotState) : BotState × List BotEv :=
  if st.newRelease.triggerOnIssue = false then (st, [])
  else issueStage env st

/-- Comment buffer contents at the flush point of the cycle. -/
def cycleBuffer (env : BotEnv) (st : BotState) : List String :=
  (cycleBlock2 env (cycleBlock1 env st).1).1.comment

/-- Target PR of the consolidated comment of the cycle. -/
def cycleTarget (env : BotEnv) (st : BotState) : Option Nat :=
  (cycleBlock2 env (cycleBlock1 env st).1).1.newRelease.prNumber

/-- One iteration of the polling loop of ReleaseBot.run (releasebot.py
lines 283 to 312): pull, the two independently guarded blocks, the single
consolidated pr_comment built by joining the comment buffer, the buffer
reset, and the inter-cycle sleep. -/
def runCycle (env : BotEnv) (st : BotState) : BotState × List BotEv :=
  let st1 := (cycleBlock1 env st).1
  let st2 := (cycleBlock2 env st1).1
  let msg := String.intercalate "\n" st2.comment
  ({ st2 with comment := [] },
   [BotEv.gitPull] ++ (cycleBlock1 env st).2 ++ (cycleBlock2 env st1).2 ++
   [BotEv.prComment st2.newRelease.prNumber msg, BotEv.logDebug "Done, going to sleep", BotEv.sleep])

/- ------------------------------------------------------------------ -/
/- Event predicates                                                    -/
/- ------------------------------------------------------------------ -/

/-- Events of the PyPi release path (the upload call, the tag fetch and
the checkouts happen only inside make_new_pypi_release). -/
def isPypiPathEv : BotEv → Bool
  | .pypiUpload _ _ => true
  | .gitFetchTags => true
  | .gitCheckout _ => true
  | _ => false

/-- A call to github.make_release_pr, the PR creation. -/
def isMakePrEv : BotEv → Bool
  | .makeReleasePr => true
  | _ => false

/-- A label application on an issue. -/
def isAddLabelsEv : BotEv → Bool
  | .addIssueLabels _ _ => true
  | _ => false

/-- A comment posted on an issue. -/
def isIssueCommentEv : BotEv → Bool
  | .issueComment _ _ => true
  | _ => false

/-- An issue being closed. -/
def isIssueCloseEv : BotEv → Bool
  | .issueClose _ => true
  | _ => false

/-- An error-level log entry. -/
def isLogErrorEv : BotEv → Bool
  | .logError _ => true
  | _ => false

/-- A consolidated PR comment post. -/
def isPrCommentEv : BotEv → Bool
  | .prComment _ _ => true
  | _ => false

/-- A Github release adapter call. -/
def isGhAttemptEv : BotEv → Bool
  | .ghRelease _ _ => true
  | _ => false

/-- A Github release that went live. -/
def isGhLiveEv : BotEv → Bool
  | .ghRelease _ r => r
  | _ => false

/-- A PyPi upload that went live. -/
def isPypiLiveEv : BotEv → Bool
  | .pypiUpload _ r => r
  | _ => false

/-- Checks that no issueClose event precedes the first makeReleasePr event
of a trace. -/
def closeOnlyAfterPr : List BotEv → Bool
  | [] => true
  | BotEv.issueClose _ :: _ => false
  | BotEv.makeReleasePr :: _ => true
  | _ :: rest => closeOnlyAfterPr rest

/- ------------------------------------------------------------------ -/
/- Concrete instances used by witnesses and counterexamples            -/
/- ------------------------------------------------------------------ -/

/-- Concrete Fedora environment: everything succeeds except that the
fast-forward merge fails on every branch but f30, switching to f99 fails,
and branch f29 sees no new source files. -/
def fedEnvAll : FedoraEnv :=
  { fasUsername := "releasebot"
    kinitOk := true
    cloneOk := true
    switchOk := fun b => !(b == "f99")
    mergeOk := fun b => b == "f30"
    sourcesOk := fun _ => true
    lintOk := fun _ => true
    spectoolOk := fun _ => true
    dirBefore := fun _ => ["pkg.spec"]
    dirAfter := fun b => if b == "f29" then ["pkg.spec"] else ["pkg.spec", "pkg-1.3.0.tar.gz"]
    newSourcesOk := fun _ => true
    commitOk := fun _ => true
    pushOk := fun _ => true
    buildOk := fun _ => true }

/-- Concrete Fedora environment with no FAS username configured. -/
def fedEnvNoUser : FedoraEnv :=
  { fedEnvAll with fasUsername := "" }

/-- Concrete release record before any cycle work. -/
def baseNewRelease : NewRelease :=
  { version := ⟨0, 0, 0⟩, commitish := "", prNumber := none,
    pypi := false, triggerOnIssue := false, labels := none }

/-- Concrete pull-request record before any cycle work. -/
def baseNewPR : NewPR :=
  { version := ⟨0, 0, 0⟩, previousVersion := ⟨0, 0, 0⟩, issueNumber := 0, labels := none }

/-- Concrete coordinator state: both adapters last released 1.2.0, the
comment buffer is empty and the records are fresh. -/
def baseState : BotState :=
  { ghLatest := ⟨1, 2, 0⟩, pypiLatest := ⟨1, 2, 0⟩, comment := [],
    newRelease := baseNewRelease, newPr := baseNewPR }

/-- Concrete benign cycle environment: no issues, no merged PRs, every
external call succeeds. -/
def baseEnv : BotEnv :=
  { dryRun := false, service := GitService.Github, openedIssues := [], mergedPrs := [],
    loadConfRaises := false, confPypi := true, confTrigger := false, confLabels := none,
    ghLatestRaises := false, pypiLatestRaises := false,
    ghMakeNewRelease := .ok true, makeReleasePr := .ok true, pypiRelease := .ok true,
    repoOk := true }

/-- Concrete cycle environment for C1: a merged release PR for 1.3.0 is
found and the Github release raises a ReleaseException. -/
def envC1 : BotEnv :=
  { baseEnv with mergedPrs := [{ id := 7, titleVersion := some ⟨1, 3, 0⟩, author := "alice" }],
                 ghMakeNewRelease := .exc }

/-- Concrete cycle environment for C3: two open, modifiable release issues
whose titles name the same qualifying version 1.3.0. -/
def envC3 : BotEnv :=
  { baseEnv with
      confTrigger := true
      openedIssues :=
        [{ id := 21, titleVersion := some ⟨1, 3, 0⟩, botCanClose := true },
         { id := 22, titleVersion := some ⟨1, 3, 0⟩, botCanClose := true }] }

/-- Concrete coordinator state for C3: issue triggering configured. -/
def stateC3 : BotState :=
  { baseState with newRelease := { baseNewRelease with triggerOnIssue := true } }

/-- Concrete cycle environment for the amended C3: two open, modifiable
release issues naming the distinct qualifying versions 2.0.0 and 2.1.0. -/
def envC3b : BotEnv :=
  { baseEnv with
      confTrigger := true
      openedIssues :=
        [{ id := 23, titleVersion := some ⟨2, 0, 0⟩, botCanClose := true },
         { id := 24, titleVersion := some ⟨2, 1, 0⟩, botCanClose := true }] }

/-- Concrete coordinator state for C7: the pull-request record targets
1.2.0, which the source forge has already released. -/
def stateC7 : BotState :=
  { baseState with newPr := { baseNewPR with version := ⟨1, 2, 0⟩, issueNumber := 5 } }

/-- Concrete coordinator state for C7 failure path: the record targets a
fresh version 1.3.0. -/
def stateC7b : BotState :=
  { baseState with newPr := { baseNewPR with version := ⟨1, 3, 0⟩, issueNumber := 5 } }

/-- Concrete cycle environment for C7 failure path: the PR creation call
raises a ReleaseException. -/
def envC7b : BotEnv :=
  { baseEnv with makeReleasePr := .exc }

/-- Concrete coordinator state for C2: a release of 1.3.0 that both
adapters already carry, with the package-index release enabled. -/
def stateIdem : BotState :=
  { baseState with
      ghLatest := ⟨1, 3, 0⟩, pypiLatest := ⟨1, 3, 0⟩,
      newRelease := { baseNewRelease with version := ⟨1, 3, 0⟩, pypi := true } }

/-- Concrete coordinator state for C2 second part: a fresh 1.3.0 release
on adapters that carry 1.2.0. -/
def stateFresh : BotState :=
  { baseState with
      newRelease := { baseNewRelease with version := ⟨1, 3, 0⟩, pypi := true } }

/-- Concrete open issues for C10: issue 31 names qualifying version 1.3.0
but the bot may not modify it; issue 32 names qualifying version 1.4.0 and
is modifiable. -/
def issueNoPerm : Issue := { id := 31, titleVersion := some ⟨1, 3, 0⟩, botCanClose := false }

/-- The modifiable qualifying issue of the C10 scenario. -/
def issuePerm : Issue := { id := 32, titleVersion := some ⟨1, 4, 0⟩, botCanClose := true }

/-- Concrete cycle environment for C10: both issues are open. -/
def envC10 : BotEnv :=
  { baseEnv with confTrigger := true, openedIssues := [issueNoPerm, issuePerm] }

/- ------------------------------------------------------------------ -/
/- Helper lemmas: Fedora                                               -/
/- ------------------------------------------------------------------ -/

/-- A best-effort shell command reports its outcome and never raises. -/
theorem shellCommand_false (ok : Bool) : shellCommand ok false = PyRes.ok ok := by
  cases ok <;> rfl

/-- A fatal-policy shell command either succeeds or raises. -/
theorem shellCommand_true (ok : Bool) :
    shellCommand ok true = if ok then PyRes.ok true else PyRes.exc := by
  cases ok <;> rfl

/-- On a branch that is not master-equivalent, update_package runs every
step with fail=False and therefore never raises. -/
theorem updatePackage_ok (env : FedoraEnv) (b : String) (hb : strLower b ≠ "master") :
    ∃ r, (updatePackage env b).1 = PyRes.ok r := by
  have hf : (strLower b == "master") = false := by
    simpa using hb
  cases h1 : env.sourcesOk b <;> cases h2 : env.lintOk b <;> cases h3 : env.spectoolOk b <;>
    cases h4 : env.newSourcesOk b <;> cases h5 : env.commitOk b <;> cases h6 : env.pushOk b <;>
    cases h7 : env.buildOk b <;>
    simp [updatePackage, hf, shellCommand_false, h1, h2, h3, h4, h5, h6, h7] <;>
    split <;> simp

/-- The update_package trace never holds a kerberos event. -/
theorem updatePackage_no_kinit (env : FedoraEnv) (b : String) :
    FedoraEv.kinit ∉ (updatePackage env b).2 := by
  cases hf : (strLower b == "master") <;>
    cases h1 : env.sourcesOk b <;> cases h2 : env.lintOk b <;> cases h3 : env.spectoolOk b <;>
    cases h4 : env.newSourcesOk b <;> cases h5 : env.commitOk b <;> cases h6 : env.pushOk b <;>
    cases h7 : env.buildOk b <;>
    simp [updatePackage, hf, shellCommand_false, shellCommand_true,
      h1, h2, h3, h4, h5, h6, h7] <;>
    split <;> simp

/-- Every new-sources registration event of update_package carries exactly
the files that are present after fedpkg_spectool and were absent before. -/
theorem updatePackage_newSources_mem (env : FedoraEnv) (b : String) (fs : List String)
    (h : FedoraEv.newSources b fs ∈ (updatePackage env b).2) : fs = newFiles env b := by
  revert h
  cases hf : (strLower b == "master") <;>
    cases h1 : env.sourcesOk b <;> cases h2 : env.lintOk b <;> cases h3 : env.spectoolOk b <;>
    cases h4 : env.newSourcesOk b <;> cases h5 : env.commitOk b <;> cases h6 : env.pushOk b <;>
    cases h7 : env.buildOk b <;>
    simp [updatePackage, hf, shellCommand_false, shellCommand_true,
      h1, h2, h3, h4, h5, h6, h7] <;>
    split <;> simp

/-- On a branch that is not master-equivalent, the per-branch loop body
never raises. -/
theorem branchStep_ok (env : FedoraEnv) (b : String) (hb : strLower b ≠ "master") :
    (branchStep env b).1 = PyRes.ok () := by
  obtain ⟨r, hr⟩ := updatePackage_ok env b hb
  cases hsw : env.switchOk b
  · simp [branchStep, shellCommand_false, hsw]
  · cases hm : env.mergeOk b
    · simp [branchStep, shellCommand_false, hsw, hm, hr, PyRes.map]
    · cases hp : env.pushOk b <;>
        simp [branchStep, shellCommand_false, hsw, hm, hp]

/-- The per-branch loop body never emits a kerberos event. -/
theorem branchStep_no_kinit (env : FedoraEnv) (b : String) :
    FedoraEv.kinit ∉ (branchStep env b).2 := by
  have hup := updatePackage_no_kinit env b
  cases hsw : env.switchOk b <;> cases hm : env.mergeOk b <;> cases hp : env.pushOk b <;>
    simp [branchStep, shellCommand_false, hsw, hm, hp] <;>
    simp [hup]

/-- When no configured branch is master-equivalent, the secondary-branch
loop never raises. -/
theorem branchLoop_ok (env : FedoraEnv) (bs : List String)
    (h : ∀ b ∈ bs, strLower b ≠ "master") :
    (branchLoop env bs).1 = PyRes.ok () := by
  induction bs with
  | nil => rfl
  | cons b rest ih =>
    have hb : (branchStep env b).1 = PyRes.ok () :=
      branchStep_ok env b (h b (by simp))
    rcases hstep : branchStep env b with ⟨r, tr⟩
    rw [hstep] at hb
    simp only at hb
    subst hb
    simp [branchLoop, hstep, ih (fun x hx => h x (by simp [hx]))]

/-- The secondary-branch loop never emits a kerberos event. -/
theorem branchLoop_no_kinit (env : FedoraEnv) (bs : List String) :
    FedoraEv.kinit ∉ (branchLoop env bs).2 := by
  induction bs with
  | nil => simp [branchLoop]
  | cons b rest ih =>
    have hb := branchStep_no_kinit env b
    rcases hstep : branchStep env b with ⟨r, tr⟩
    rw [hstep] at hb
    simp only at hb
    cases r <;> simp [branchLoop, hstep] <;> simp_all

/- ------------------------------------------------------------------ -/
/- Claim theorems: Fedora adapter                                      -/
/- ------------------------------------------------------------------ -/

/-- C4: for every tracked non-primary (not master-equivalent) Fedora
branch, a failed switch skips the branch silently (the loop body performs
nothing else and reports no error); when the branch exists and the
fast-forward-only merge from master fails, the loop body replays the full
update procedure from scratch on that branch, and neither the merge
failure nor any failure of the replayed steps propagates as fatal: the
replayed update never raises and the loop body always completes
normally. -/
theorem claim_C4_secondary_branch_best_effort (env : FedoraEnv) (b : String)
    (hb : strLower b ≠ "master") :
    (branchStep env b).1 = PyRes.ok () ∧
    (env.switchOk b = false → branchStep env b = (PyRes.ok (), [FedoraEv.switchBranch b])) ∧
    (env.switchOk b = true → env.mergeOk b = false →
      branchStep env b = (PyRes.ok (),
        [FedoraEv.switchBranch b, FedoraEv.merge b,
         FedoraEv.logDebug ("Trying to make the changes on branch " ++ b ++ " from scratch")] ++
        (updatePackage env b).2) ∧
      (updatePackage env b).1 ≠ PyRes.exc) := by
  obtain ⟨r, hr⟩ := updatePackage_ok env b hb
  refine ⟨branchStep_ok env b hb, ?_, ?_⟩
  · intro hsw
    simp [branchStep, shellCommand_false, hsw]
  · intro hsw hm
    refine ⟨?_, by simp [hr]⟩
    simp [branchStep, shellCommand_false, hsw, hm, hr, PyRes.map]

/-- Witness for C4 at a concrete environment: branch f31 exists, its merge
fails, the replay runs from scratch and completes without raising; branch
f99 cannot be switched to and is skipped silently. -/
theorem claim_C4_witness :
    (branchStep fedEnvAll "f31").1 = PyRes.ok () ∧
    branchStep fedEnvAll "f31" = (PyRes.ok (),
      [FedoraEv.switchBranch "f31", FedoraEv.merge "f31",
       FedoraEv.logDebug "Trying to make the changes on branch f31 from scratch"] ++
      (updatePackage fedEnvAll "f31").2) ∧
    (updatePackage fedEnvAll "f31").1 ≠ PyRes.exc ∧
    branchStep fedEnvAll "f99" = (PyRes.ok (), [FedoraEv.switchBranch "f99"]) :=
  ⟨(claim_C4_secondary_branch_best_effort fedEnvAll "f31" (by decide)).1,
   ((claim_C4_secondary_branch_best_effort fedEnvAll "f31" (by decide)).2.2
      (by decide) (by decide)).1,
   ((claim_C4_secondary_branch_best_effort fedEnvAll "f31" (by decide)).2.2
      (by decide) (by decide)).2,
   (claim_C4_secondary_branch_best_effort fedEnvAll "f99" (by decide)).2.1 (by decide)⟩

/-- C5: in update_package the set of new sources is exactly the files
present in the directory listing after fedpkg_spectool that were absent
before it, and when that set is empty (with the earlier steps having
succeeded so the check is reached) the branch update returns False with a
warning and performs no new-sources registration, commit, push or
build. -/
theorem claim_C5_new_sources_diff (env : FedoraEnv) (b : String) :
    (∀ fs, FedoraEv.newSources b fs ∈ (updatePackage env b).2 → fs = newFiles env b) ∧
    (newFiles env b = [] → env.sourcesOk b = true → env.lintOk b = true →
      env.spectoolOk b = true →
      updatePackage env b =
        (PyRes.ok false,
         [FedoraEv.sources b, FedoraEv.updateSpec b, FedoraEv.lint b, FedoraEv.spectool b,
          FedoraEv.logWarning "There are no new sources, will not continue releasing to fedora"])) := by
  refine ⟨fun fs h => updatePackage_newSources_mem env b fs h, ?_⟩
  intro hnf h1 h2 h3
  have hsc1 : shellCommand (env.sourcesOk b) (strLower b == "master") = PyRes.ok true := by
    rw [h1]; cases (strLower b == "master") <;> rfl
  have hsc2 : shellCommand (env.lintOk b) (strLower b == "master") = PyRes.ok true := by
    rw [h2]; cases (strLower b == "master") <;> rfl
  have hsc3 : shellCommand (env.spectoolOk b) (strLower b == "master") = PyRes.ok true := by
    rw [h3]; cases (strLower b == "master") <;> rfl
  simp [updatePackage, hsc1, hsc2, hsc3, hnf]

/-- Witness for C5 at a concrete environment: on branch f29 the listings
before and after spectool coincide, the update stops with the warning, and
a concrete new-sources event on branch f30 carries exactly the listing
difference. -/
theorem claim_C5_witness :
    (["pkg-1.3.0.tar.gz"] = newFiles fedEnvAll "f30") ∧
    updatePackage fedEnvAll "f29" =
      (PyRes.ok false,
       [FedoraEv.sources "f29", FedoraEv.updateSpec "f29", FedoraEv.lint "f29",
        FedoraEv.spectool "f29",
        FedoraEv.logWarning "There are no new sources, will not continue releasing to fedora"]) :=
  ⟨(claim_C5_new_sources_diff fedEnvAll "f30").1 ["pkg-1.3.0.tar.gz"] (by decide),
   (claim_C5_new_sources_diff fedEnvAll "f29").2 (by decide) (by decide) (by decide) (by decide)⟩

/-- C6: the kerberos ticket acquisition is the first event of every
Fedora.release execution and occurs exactly once (never again in the rest
of the trace); when it fails, including when no FAS username is
configured, the release returns False after only a warning, with no
cloning, branch switching or package-update step executed. -/
theorem claim_C6_ticket_first_and_once (env : FedoraEnv) (bs : List String) :
    ((fedoraRelease env bs).2.head? = some FedoraEv.kinit ∧
     FedoraEv.kinit ∉ (fedoraRelease env bs).2.tail) ∧
    (initTicket env = false →
      fedoraRelease env bs =
        (PyRes.ok false,
         [FedoraEv.kinit,
          FedoraEv.logWarning "Cannot obtain a valid kerberos ticket, skipping fedora release"])) := by
  constructor
  · have hup := updatePackage_no_kinit env "master"
    have hbl := branchLoop_no_kinit env bs
    cases hi : initTicket env
    · simp [fedoraRelease, hi]
    · cases hc : env.cloneOk
      · simp [fedoraRelease, hi, hc, shellCommand]
      · cases hsw : env.switchOk "master"
        · simp [fedoraRelease, hi, hc, hsw, shellCommand]
        · rcases hu : updatePackage env "master" with ⟨ur, utr⟩
          rw [hu] at hup
          simp only at hup
          rcases hb : branchLoop env bs with ⟨br, btr⟩
          rw [hb] at hbl
          simp only at hbl
          rcases ur with _ | uv
          · simp [fedoraRelease, hi, hc, hsw, shellCommand, hu, hup]
          · rcases uv <;> rcases br <;>
              simp [fedoraRelease, hi, hc, hsw, shellCommand, hu, hb, hup, hbl]
  · intro hi
    simp [fedoraRelease, hi]

/-- Witness for C6: with no FAS username the concrete release run returns
False after the single acquisition attempt and the warning. -/
theorem claim_C6_witness :
    (fedoraRelease fedEnvNoUser ["f30", "f31"]).2.head? = some FedoraEv.kinit ∧
    fedoraRelease fedEnvNoUser ["f30", "f31"] =
      (PyRes.ok false,
       [FedoraEv.kinit,
        FedoraEv.logWarning "Cannot obtain a valid kerberos ticket, skipping fedora release"]) :=
  ⟨(claim_C6_ticket_first_and_once fedEnvNoUser ["f30", "f31"]).1.1,
   (claim_C6_ticket_first_and_once fedEnvNoUser ["f30", "f31"]).2 (by decide)⟩

/-- C9: Fedora.release returns True whenever the ticket acquisition, the
clone, the switch to master and the master-branch update all succeed,
whatever happens on the other (not master-equivalent) tracked branches:
every secondary-branch failure is absorbed and the returned result is
unchanged. -/
theorem claim_C9_master_success_suffices (env : FedoraEnv) (bs : List String)
    (ht : initTicket env = true) (hc : env.cloneOk = true)
    (hs : env.switchOk "master" = true)
    (hu : (updatePackage env "master").1 = PyRes.ok true)
    (hbs : ∀ b ∈ bs, strLower b ≠ "master") :
    (fedoraRelease env bs).1 = PyRes.ok true := by
  have hbl : (branchLoop env bs).1 = PyRes.ok () := branchLoop_ok env bs hbs
  rcases hup : updatePackage env "master" with ⟨ur, utr⟩
  rw [hup] at hu
  simp only at hu
  subst hu
  rcases hb : branchLoop env bs with ⟨br, btr⟩
  rw [hb] at hbl
  simp only at hbl
  subst hbl
  simp [fedoraRelease, ht, hc, hs, shellCommand, hup, hb]

/-- Witness for C9 at a concrete environment where the master path
succeeds while the secondary branches fail in assorted ways (f99 cannot be
switched to, f29 has no new sources in its from-scratch replay, f31 merges
unsuccessfully): the release still returns True. -/
theorem claim_C9_witness :
    (fedoraRelease fedEnvAll ["f99", "f29", "f30", "f31"]).1 = PyRes.ok true :=
  claim_C9_master_success_suffices fedEnvAll ["f99", "f29", "f30", "f31"]
    (by decide) (by decide) (by decide) (by decide) (by decide)

/- ------------------------------------------------------------------ -/
/- Helper lemmas: version order                                        -/
/- ------------------------------------------------------------------ -/

/-- Arithmetic characterisation of the strict version order. -/
theorem SemVer.blt_iff (a b : SemVer) : SemVer.blt a b = true ↔
    (a.major < b.major ∨ (a.major = b.major ∧
      (a.minor < b.minor ∨ (a.minor = b.minor ∧ a.patch < b.patch)))) := by
  unfold SemVer.blt
  split_ifs <;> simp <;> omega

/-- The version order is reflexive. -/
theorem SemVer.ble_refl (v : SemVer) : SemVer.ble v v = true := by
  simp [SemVer.ble, SemVer.blt]

/-- A strictly larger version is not bounded by the smaller one. -/
theorem SemVer.ble_false_of_blt (a b : SemVer) (h : SemVer.blt a b = true) :
    SemVer.ble b a = false := by
  rw [SemVer.blt_iff] at h
  have h1 : SemVer.blt b a = false := by
    rw [Bool.eq_false_iff, Ne, SemVer.blt_iff]
    omega
  have h2 : b ≠ a := by
    rintro rfl
    omega
  simp [SemVer.ble, h1, h2]

/- ------------------------------------------------------------------ -/
/- Helper lemmas: matchers and the issue scan                          -/
/- ------------------------------------------------------------------ -/

/-- A matched merged PR always names a version strictly above the
reference version. -/
theorem findMatchingPr_blt (latest : SemVer) (prs : List MergedPr) (v : SemVer) (pr : MergedPr)
    (h : findMatchingPr latest prs = some (v, pr)) : SemVer.blt latest v = true := by
  induction prs with
  | nil => simp [findMatchingPr] at h
  | cons p rest ih =>
    rcases hp : p.titleVersion with _ | w
    · simp only [findMatchingPr, hp, processVersionFromTitle] at h
      exact ih h
    · cases hlt : SemVer.blt latest w
      · simp only [findMatchingPr, hp, processVersionFromTitle, hlt, Bool.false_eq_true,
          if_false] at h
        exact ih h
      · simp only [findMatchingPr, hp, processVersionFromTitle, hlt, if_true] at h
        obtain ⟨rfl, rfl⟩ : w = v ∧ p = pr := by simpa using h
        exact hlt

/-- The issue scan only appends info and warning log events: any predicate
that rejects both is decided by the incoming event list. -/
theorem collectAux_any (latest : SemVer) (p : BotEv → Bool)
    (hi : ∀ s, p (BotEv.logInfo s) = false) (hw : ∀ s, p (BotEv.logWarning s) = false) :
    ∀ (issues : List Issue) (acc : List (SemVer × Issue)) (evs : List BotEv),
      ((collectAux latest acc evs issues).2.any p) = evs.any p := by
  intro issues
  induction issues with
  | nil => intro acc evs; rfl
  | cons i rest ih =>
    intro acc evs
    rcases hp : processVersionFromTitle i.titleVersion latest with ⟨m, ov⟩
    cases m
    · cases ov <;> simp [collectAux, hp, ih]
    · cases ov
      · simp [collectAux, hp, ih]
      · cases hc : i.botCanClose <;>
          simp [collectAux, hp, hc, ih, List.any_append, hi, hw]

/-- Inserting a modifiable issue into a dict of modifiable issues keeps
every entry modifiable. -/
theorem upsertIssue_closeable (v : SemVer) (i : Issue) (hcl : i.botCanClose = true) :
    ∀ (acc : List (SemVer × Issue)), (∀ q ∈ acc, q.2.botCanClose = true) →
      ∀ q ∈ upsertIssue v i acc, q.2.botCanClose = true := by
  intro acc
  induction acc with
  | nil =>
    intro _ q hq
    simp only [upsertIssue, List.mem_singleton] at hq
    simp [hq, hcl]
  | cons a arest ih =>
    rcases a with ⟨k2, i2⟩
    intro hacc q hq
    by_cases he : k2 = v
    · simp only [upsertIssue, if_pos he] at hq
      rcases List.mem_cons.mp hq with rfl | hq2
      · exact hcl
      · exact hacc q (List.mem_cons_of_mem _ hq2)
    · simp only [upsertIssue, if_neg he] at hq
      rcases List.mem_cons.mp hq with rfl | hq2
      · exact hacc (k2, i2) (List.mem_cons_self _ _)
      · exact ih (fun r hr => hacc r (List.mem_cons_of_mem _ hr)) q hq2

/-- Every entry the issue scan retains is an issue the bot may modify. -/
theorem collectAux_closeable (latest : SemVer) :
    ∀ (issues : List Issue) (acc : List (SemVer × Issue)) (evs : List BotEv),
      (∀ q ∈ acc, q.2.botCanClose = true) →
      ∀ q ∈ (collectAux latest acc evs issues).1, q.2.botCanClose = true := by
  intro issues
  induction issues with
  | nil => intro acc evs hacc; exact hacc
  | cons i rest ih =>
    intro acc evs hacc
    rcases hp : processVersionFromTitle i.titleVersion latest with ⟨m, ov⟩
    cases m
    · cases ov <;> simpa [collectAux, hp] using ih acc evs hacc
    · cases ov
      · simpa [collectAux, hp] using ih acc evs hacc
      · cases hc : i.botCanClose
        · simpa [collectAux, hp, hc] using ih acc _ hacc
        · simp only [collectAux, hp, hc]
          exact ih _ _ (upsertIssue_closeable _ i hc acc hacc)

/- ------------------------------------------------------------------ -/
/- Helper lemmas: exhaustive shapes of the release functions            -/
/- ------------------------------------------------------------------ -/

/-- Exhaustive case analysis of make_new_github_release: the query
failure, the already-released branch, the dry run, and the three adapter
outcomes. -/
theorem makeNewGithubRelease_cases (env : BotEnv) (st : BotState) :
    (env.ghLatestRaises = true ∧
       makeNewGithubRelease env st = (PyRes.exc, st, [])) ∨
    (env.ghLatestRaises = false ∧ SemVer.ble st.newRelease.version st.ghLatest = true ∧
       makeNewGithubRelease env st =
         (PyRes.ok (some st.newRelease), st,
          [BotEv.logInfo (ghAlreadyMsg env.service st.newRelease.version)])) ∨
    (env.ghLatestRaises = false ∧ SemVer.ble st.newRelease.version st.ghLatest = false ∧
       env.dryRun = true ∧
       makeNewGithubRelease env st = (PyRes.ok none, st, [])) ∨
    (env.ghLatestRaises = false ∧ SemVer.ble st.newRelease.version st.ghLatest = false ∧
       env.dryRun = false ∧ env.ghMakeNewRelease = PyRes.exc ∧
       makeNewGithubRelease env st =
         (PyRes.exc,
          { st with comment := st.comment ++ [ghFailMsg env.service st.newRelease.version] },
          [BotEv.ghRelease st.newRelease.version false,
           BotEv.logError (ghFailMsg env.service st.newRelease.version)])) ∨
    (env.ghLatestRaises = false ∧ SemVer.ble st.newRelease.version st.ghLatest = false ∧
       env.dryRun = false ∧ env.ghMakeNewRelease = PyRes.ok true ∧
       makeNewGithubRelease env st =
         (PyRes.ok (some st.newRelease),
          { st with ghLatest := st.newRelease.version,
                    comment := st.comment ++ [ghOkMsg env.service st.newRelease.version] },
          [BotEv.ghRelease st.newRelease.version true,
           BotEv.logInfo (ghOkMsg env.service st.newRelease.version)])) ∨
    (env.ghLatestRaises = false ∧ SemVer.ble st.newRelease.version st.ghLatest = false ∧
       env.dryRun = false ∧ env.ghMakeNewRelease = PyRes.ok false ∧
       makeNewGithubRelease env st =
         (PyRes.ok (some st.newRelease), st,
          [BotEv.ghRelease st.newRelease.version false])) := by
  cases hlr : env.ghLatestRaises
  · cases hble : SemVer.ble st.newRelease.version st.ghLatest
    · cases hdry : env.dryRun
      · rcases hor : env.ghMakeNewRelease with _ | b
        · exact Or.inr (Or.inr (Or.inr (Or.inl ⟨rfl, rfl, rfl, rfl,
            by simp [makeNewGithubRelease, hlr, hble, hdry, hor]⟩)))
        · cases b
          · exact Or.inr (Or.inr (Or.inr (Or.inr (Or.inr ⟨rfl, rfl, rfl, rfl,
              by simp [makeNewGithubRelease, hlr, hble, hdry, hor]⟩))))
          · exact Or.inr (Or.inr (Or.inr (Or.inr (Or.inl ⟨rfl, rfl, rfl, rfl,
              by simp [makeNewGithubRelease, hlr, hble, hdry, hor]⟩))))
      · exact Or.inr (Or.inr (Or.inl ⟨rfl, rfl, rfl,
          by simp [makeNewGithubRelease, hlr, hble, hdry]⟩))
    · exact Or.inr (Or.inl ⟨rfl, rfl,
        by simp [makeNewGithubRelease, hlr, hble]⟩)
  · exact Or.inl ⟨rfl, by simp [makeNewGithubRelease, hlr]⟩

/-- Exhaustive case analysis of make_new_pypi_release: the disabled flag,
the query failure, the already-released branch, and the three outcomes of
the upload call. -/
theorem makeNewPypiRelease_cases (env : BotEnv) (st : BotState) :
    (st.newRelease.pypi = false ∧
       makeNewPypiRelease env st =
         (PyRes.ok false, st, [BotEv.logDebug "Skipping PyPi release"])) ∨
    (st.newRelease.pypi = true ∧ env.pypiLatestRaises = true ∧
       makeNewPypiRelease env st = (PyRes.exc, st, [])) ∨
    (st.newRelease.pypi = true ∧ env.pypiLatestRaises = false ∧
       SemVer.ble st.newRelease.version st.pypiLatest = true ∧
       makeNewPypiRelease env st =
         (PyRes.ok false, st,
          [BotEv.logInfo (pypiAlreadyMsg st.newRelease.version)])) ∨
    (st.newRelease.pypi = true ∧ env.pypiLatestRaises = false ∧
       SemVer.ble st.newRelease.version st.pypiLatest = false ∧
       env.pypiRelease = PyRes.ok false ∧
       makeNewPypiRelease env st =
         (PyRes.ok false, st,
          [BotEv.gitFetchTags, BotEv.gitCheckout (verStr st.newRelease.version),
           BotEv.pypiUpload st.newRelease.version false, BotEv.gitCheckout "master"])) ∨
    (st.newRelease.pypi = true ∧ env.pypiLatestRaises = false ∧
       SemVer.ble st.newRelease.version st.pypiLatest = false ∧
       env.pypiRelease = PyRes.ok true ∧
       makeNewPypiRelease env st =
         (PyRes.ok true,
          { st with pypiLatest := st.newRelease.version,
                    comment := st.comment ++ [pypiOkMsg env.dryRun st.newRelease.version] },
          [BotEv.gitFetchTags, BotEv.gitCheckout (verStr st.newRelease.version),
           BotEv.pypiUpload st.newRelease.version true,
           BotEv.logInfo (pypiOkMsg env.dryRun st.newRelease.version),
           BotEv.gitCheckout "master"])) ∨
    (st.newRelease.pypi = true ∧ env.pypiLatestRaises = false ∧
       SemVer.ble st.newRelease.version st.pypiLatest = false ∧
       env.pypiRelease = PyRes.exc ∧
       makeNewPypiRelease env st =
         (PyRes.exc,
          { st with comment := st.comment ++ [pypiFailMsg st.newRelease.version] },
          [BotEv.gitFetchTags, BotEv.gitCheckout (verStr st.newRelease.version),
           BotEv.pypiUpload st.newRelease.version false,
           BotEv.logError (pypiFailMsg st.newRelease.version),
           BotEv.gitCheckout "master"])) := by
  cases hfl : st.newRelease.pypi
  · exact Or.inl ⟨rfl, by simp [makeNewPypiRelease, hfl]⟩
  · cases hplr : env.pypiLatestRaises
    · cases hble : SemVer.ble st.newRelease.version st.pypiLatest
      · rcases hor : env.pypiRelease with _ | b
        · exact Or.inr (Or.inr (Or.inr (Or.inr (Or.inr ⟨rfl, rfl, rfl, rfl,
            by simp [makeNewPypiRelease, hfl, hplr, hble, hor]⟩))))
        · cases b
          · exact Or.inr (Or.inr (Or.inr (Or.inl ⟨rfl, rfl, rfl, rfl,
              by simp [makeNewPypiRelease, hfl, hplr, hble, hor]⟩)))
          · exact Or.inr (Or.inr (Or.inr (Or.inr (Or.inl ⟨rfl, rfl, rfl, rfl,
              by simp [makeNewPypiRelease, hfl, hplr, hble, hor]⟩))))
      · exact Or.inr (Or.inr (Or.inl ⟨rfl, rfl, rfl,
          by simp [makeNewPypiRelease, hfl, hplr, hble]⟩))
    · exact Or.inr (Or.inl ⟨rfl, rfl, by simp [makeNewPypiRelease, hfl, hplr]⟩)

/-- Exhaustive case analysis of make_release_pull_request: the query
failure, the already-released warning, the missing repository, and the
three outcomes of the PR creation call. -/
theorem makeReleasePullRequest_cases (env : BotEnv) (st : BotState) :
    (env.ghLatestRaises = true ∧
       makeReleasePullRequest env st = (PyRes.exc, st, [])) ∨
    (env.ghLatestRaises = false ∧ SemVer.ble st.newPr.version st.ghLatest = true ∧
       makeReleasePullRequest env st =
         (PyRes.ok false,
          { st with newPr := { st.newPr with previousVersion := st.ghLatest } },
          [BotEv.logWarning (alreadyPrMsg st.ghLatest)])) ∨
    (env.ghLatestRaises = false ∧ SemVer.ble st.newPr.version st.ghLatest = false ∧
       env.repoOk = false ∧
       makeReleasePullRequest env st =
         (PyRes.exc,
          { st with newPr := { st.newPr with previousVersion := st.ghLatest } },
          (if env.dryRun then [] else
            [BotEv.logInfo ("Making a new PR for release of version " ++
              verStr st.newPr.version ++ " based on the issue.")]) ++
          [BotEv.logError (prFailMsg st.newPr.version),
           BotEv.issueComment st.newPr.issueNumber (prFailMsg st.newPr.version)])) ∨
    (env.ghLatestRaises = false ∧ SemVer.ble st.newPr.version st.ghLatest = false ∧
       env.repoOk = true ∧ env.makeReleasePr = PyRes.exc ∧
       makeReleasePullRequest env st =
         (PyRes.exc,
          { st with newPr := { st.newPr with previousVersion := st.ghLatest } },
          (if env.dryRun then [] else
            [BotEv.logInfo ("Making a new PR for release of version " ++
              verStr st.newPr.version ++ " based on the issue.")]) ++
          [BotEv.makeReleasePr,
           BotEv.logError (prFailMsg st.newPr.version),
           BotEv.issueComment st.newPr.issueNumber (prFailMsg st.newPr.version)])) ∨
    (env.ghLatestRaises = false ∧ SemVer.ble st.newPr.version st.ghLatest = false ∧
       env.repoOk = true ∧ env.makeReleasePr = PyRes.ok true ∧
       makeReleasePullRequest env st =
         (PyRes.ok true,
          { st with newPr := { st.newPr with previousVersion := st.ghLatest } },
          (if env.dryRun then [] else
            [BotEv.logInfo ("Making a new PR for release of version " ++
              verStr st.newPr.version ++ " based on the issue.")]) ++
          [BotEv.makeReleasePr,
           BotEv.logInfo (prOkMsg st.newPr.version),
           BotEv.issueComment st.newPr.issueNumber (prOkMsg st.newPr.version),
           BotEv.issueClose st.newPr.issueNumber,
           BotEv.logDebug "Closed issue"])) ∨
    (env.ghLatestRaises = false ∧ SemVer.ble st.newPr.version st.ghLatest = false ∧
       env.repoOk = true ∧ env.makeReleasePr = PyRes.ok false ∧
       makeReleasePullRequest env st =
         (PyRes.ok false,
          { st with newPr := { st.newPr with previousVersion := st.ghLatest } },
          (if env.dryRun then [] else
            [BotEv.logInfo ("Making a new PR for release of version " ++
              verStr st.newPr.version ++ " based on the issue.")]) ++
          [BotEv.makeReleasePr])) := by
  cases hlr : env.ghLatestRaises
  · cases hble : SemVer.ble st.newPr.version st.ghLatest
    · cases hrep : env.repoOk
      · exact Or.inr (Or.inr (Or.inl ⟨rfl, rfl, rfl,
          by simp [makeReleasePullRequest, prHandler, hlr, hble, hrep]⟩))
      · rcases hor : env.makeReleasePr with _ | b
        · exact Or.inr (Or.inr (Or.inr (Or.inl ⟨rfl, rfl, rfl, rfl,
            by simp [makeReleasePullRequest, prHandler, hlr, hble, hrep, hor]⟩)))
        · cases b
          · exact Or.inr (Or.inr (Or.inr (Or.inr (Or.inr ⟨rfl, rfl, rfl, rfl,
              by simp [makeReleasePullRequest, prHandler, hlr, hble, hrep, hor]⟩))))
          · exact Or.inr (Or.inr (Or.inr (Or.inr (Or.inl ⟨rfl, rfl, rfl, rfl,
              by simp [makeReleasePullRequest, prHandler, hlr, hble, hrep, hor]⟩))))
    · exact Or.inr (Or.inl ⟨rfl, rfl, by simp [makeReleasePullRequest, hlr, hble]⟩)
  · exact Or.inl ⟨rfl, by simp [makeReleasePullRequest, hlr]⟩

/- ------------------------------------------------------------------ -/
/- Helper lemmas: preservation and live-release counts                  -/
/- ------------------------------------------------------------------ -/

/-- make_new_github_release never changes the release record. -/
theorem gh_newRelease_eq (env : BotEnv) (st : BotState) :
    (makeNewGithubRelease env st).2.1.newRelease = st.newRelease := by
  rcases makeNewGithubRelease_cases env st with
    ⟨_, h⟩ | ⟨_, _, h⟩ | ⟨_, _, _, h⟩ | ⟨_, _, _, _, h⟩ | ⟨_, _, _, _, h⟩ | ⟨_, _, _, _, h⟩ <;>
    rw [h]

/-- make_new_github_release never changes the PyPi adapter state. -/
theorem gh_pypiLatest_eq (env : BotEnv) (st : BotState) :
    (makeNewGithubRelease env st).2.1.pypiLatest = st.pypiLatest := by
  rcases makeNewGithubRelease_cases env st with
    ⟨_, h⟩ | ⟨_, _, h⟩ | ⟨_, _, _, h⟩ | ⟨_, _, _, _, h⟩ | ⟨_, _, _, _, h⟩ | ⟨_, _, _, _, h⟩ <;>
    rw [h]

/-- One call to make_new_github_release creates at most one live release. -/
theorem gh_live_le (env : BotEnv) (st : BotState) :
    ((makeNewGithubRelease env st).2.2.filter isGhLiveEv).length ≤ 1 := by
  rcases makeNewGithubRelease_cases env st with
    ⟨_, h⟩ | ⟨_, _, h⟩ | ⟨_, _, _, h⟩ | ⟨_, _, _, _, h⟩ | ⟨_, _, _, _, h⟩ | ⟨_, _, _, _, h⟩ <;>
    simp [h, isGhLiveEv]

/-- When the target version is already bounded by the latest release the
Github call performs no live release. -/
theorem gh_live_zero_of_done (env : BotEnv) (st : BotState)
    (hdone : SemVer.ble st.newRelease.version st.ghLatest = true) :
    ((makeNewGithubRelease env st).2.2.filter isGhLiveEv).length = 0 := by
  rcases makeNewGithubRelease_cases env st with
    ⟨_, h⟩ | ⟨_, _, h⟩ | ⟨_, hb, _, h⟩ | ⟨_, hb, _, _, h⟩ | ⟨_, hb, _, _, h⟩ | ⟨_, hb, _, _, h⟩ <;>
    first
      | (rw [hdone] at hb; cases hb)
      | simp [h, isGhLiveEv]

/-- A live Github release leaves the adapter reporting the released
version. -/
theorem gh_live_pos (env : BotEnv) (st : BotState)
    (hpos : 0 < ((makeNewGithubRelease env st).2.2.filter isGhLiveEv).length) :
    (makeNewGithubRelease env st).2.1.ghLatest = st.newRelease.version := by
  rcases makeNewGithubRelease_cases env st with
    ⟨_, h⟩ | ⟨_, _, h⟩ | ⟨_, _, _, h⟩ | ⟨_, _, _, _, h⟩ | ⟨_, _, _, _, h⟩ | ⟨_, _, _, _, h⟩ <;>
    rw [h] <;> rw [h] at hpos <;> simp [isGhLiveEv] at hpos ⊢

/-- The Github call never emits a live PyPi upload event. -/
theorem gh_pypiLive_zero (env : BotEnv) (st : BotState) :
    ((makeNewGithubRelease env st).2.2.filter isPypiLiveEv).length = 0 := by
  rcases makeNewGithubRelease_cases env st with
    ⟨_, h⟩ | ⟨_, _, h⟩ | ⟨_, _, _, h⟩ | ⟨_, _, _, _, h⟩ | ⟨_, _, _, _, h⟩ | ⟨_, _, _, _, h⟩ <;>
    simp [h, isPypiLiveEv]

/-- make_new_pypi_release never changes the release record. -/
theorem pypi_newRelease_eq (env : BotEnv) (st : BotState) :
    (makeNewPypiRelease env st).2.1.newRelease = st.newRelease := by
  rcases makeNewPypiRelease_cases env st with
    ⟨_, h⟩ | ⟨_, _, h⟩ | ⟨_, _, _, h⟩ | ⟨_, _, _, _, h⟩ | ⟨_, _, _, _, h⟩ | ⟨_, _, _, _, h⟩ <;>
    rw [h]

/-- make_new_pypi_release never changes the Github adapter state. -/
theorem pypi_ghLatest_eq (env : BotEnv) (st : BotState) :
    (makeNewPypiRelease env st).2.1.ghLatest = st.ghLatest := by
  rcases makeNewPypiRelease_cases env st with
    ⟨_, h⟩ | ⟨_, _, h⟩ | ⟨_, _, _, h⟩ | ⟨_, _, _, _, h⟩ | ⟨_, _, _, _, h⟩ | ⟨_, _, _, _, h⟩ <;>
    rw [h]

/-- One call to make_new_pypi_release creates at most one live upload. -/
theorem pypi_live_le (env : BotEnv) (st : BotState) :
    ((makeNewPypiRelease env st).2.2.filter isPypiLiveEv).length ≤ 1 := by
  rcases makeNewPypiRelease_cases env st with
    ⟨_, h⟩ | ⟨_, _, h⟩ | ⟨_, _, _, h⟩ | ⟨_, _, _, _, h⟩ | ⟨_, _, _, _, h⟩ | ⟨_, _, _, _, h⟩ <;>
    simp [h, isPypiLiveEv]

/-- When the package-index release is disabled or the target version is
already bounded by the latest upload, no live upload happens. -/
theorem pypi_live_zero_of_done (env : BotEnv) (st : BotState)
    (hdone : st.newRelease.pypi = false ∨
      SemVer.ble st.newRelease.version st.pypiLatest = true) :
    ((makeNewPypiRelease env st).2.2.filter isPypiLiveEv).length = 0 := by
  rcases makeNewPypiRelease_cases env st with
    ⟨hf, h⟩ | ⟨_, _, h⟩ | ⟨_, _, _, h⟩ | ⟨hf, _, hb, _, h⟩ | ⟨hf, _, hb, _, h⟩ | ⟨hf, _, hb, _, h⟩
  · simp [h, isPypiLiveEv]
  · simp [h, isPypiLiveEv]
  · simp [h, isPypiLiveEv]
  all_goals
    rcases hdone with hd | hd
    · rw [hd] at hf; cases hf
    · rw [hd] at hb; cases hb

/-- A live PyPi upload leaves the adapter reporting the uploaded
version. -/
theorem pypi_live_pos (env : BotEnv) (st : BotState)
    (hpos : 0 < ((makeNewPypiRelease env st).2.2.filter isPypiLiveEv).length) :
    (makeNewPypiRelease env st).2.1.pypiLatest = st.newRelease.version := by
  rcases makeNewPypiRelease_cases env st with
    ⟨_, h⟩ | ⟨_, _, h⟩ | ⟨_, _, _, h⟩ | ⟨_, _, _, _, h⟩ | ⟨_, _, _, _, h⟩ | ⟨_, _, _, _, h⟩ <;>
    rw [h] <;> rw [h] at hpos <;> simp [isPypiLiveEv] at hpos ⊢

/-- The PyPi call never emits a live Github release event. -/
theorem pypi_ghLive_zero (env : BotEnv) (st : BotState) :
    ((makeNewPypiRelease env st).2.2.filter isGhLiveEv).length = 0 := by
  rcases makeNewPypiRelease_cases env st with
    ⟨_, h⟩ | ⟨_, _, h⟩ | ⟨_, _, _, h⟩ | ⟨_, _, _, _, h⟩ | ⟨_, _, _, _, h⟩ | ⟨_, _, _, _, h⟩ <;>
    simp [h, isGhLiveEv, isPypiLiveEv]

/-- The release path preserves the release record. -/
theorem ghThenPypi_newRelease_eq (env : BotEnv) (st : BotState) :
    (ghThenPypi env st).2.1.newRelease = st.newRelease := by
  unfold ghThenPypi
  rcases hgh : makeNewGithubRelease env st with ⟨r1, st1, e1⟩
  have h1 : st1.newRelease = st.newRelease := by
    have := gh_newRelease_eq env st
    rw [hgh] at this
    exact this
  cases r1
  · exact h1
  · rcases hpy : makeNewPypiRelease env st1 with ⟨r2, st2, e2⟩
    have h2 : st2.newRelease = st1.newRelease := by
      have := pypi_newRelease_eq env st1
      rw [hpy] at this
      exact this
    cases r2 <;> simp only [] <;> rw [hpy] <;> simp [h2, h1]

/-- The release path creates at most one live Github release. -/
theorem ghThenPypi_ghLive_le (env : BotEnv) (st : BotState) :
    (((ghThenPypi env st).2.2).filter isGhLiveEv).length ≤ 1 := by
  unfold ghThenPypi
  rcases hgh : makeNewGithubRelease env st with ⟨r1, st1, e1⟩
  have h1 : (e1.filter isGhLiveEv).length ≤ 1 := by
    have := gh_live_le env st
    rw [hgh] at this
    exact this
  cases r1
  · exact h1
  · rcases hpy : makeNewPypiRelease env st1 with ⟨r2, st2, e2⟩
    have h2 : (e2.filter isGhLiveEv).length = 0 := by
      have := pypi_ghLive_zero env st1
      rw [hpy] at this
      exact this
    cases r2 <;> simp [hpy, List.filter_append, h2] <;> omega

/-- When the target is already bounded by the Github adapter state, the
release path performs no live Github release. -/
theorem ghThenPypi_ghLive_zero (env : BotEnv) (st : BotState)
    (hdone : SemVer.ble st.newRelease.version st.ghLatest = true) :
    (((ghThenPypi env st).2.2).filter isGhLiveEv).length = 0 := by
  unfold ghThenPypi
  rcases hgh : makeNewGithubRelease env st with ⟨r1, st1, e1⟩
  have h1 : (e1.filter isGhLiveEv).length = 0 := by
    have := gh_live_zero_of_done env st hdone
    rw [hgh] at this
    exact this
  cases r1
  · exact h1
  · rcases hpy : makeNewPypiRelease env st1 with ⟨r2, st2, e2⟩
    have h2 : (e2.filter isGhLiveEv).length = 0 := by
      have := pypi_ghLive_zero env st1
      rw [hpy] at this
      exact this
    cases r2 <;> simp [hpy, List.filter_append, h1, h2]

/-- A release path that created a live Github release leaves the Github
adapter reporting the target version. -/
theorem ghThenPypi_ghLive_pos (env : BotEnv) (st : BotState)
    (hpos : 0 < (((ghThenPypi env st).2.2).filter isGhLiveEv).length) :
    (ghThenPypi env st).2.1.ghLatest = st.newRelease.version := by
  revert hpos
  unfold ghThenPypi
  rcases hgh : makeNewGithubRelease env st with ⟨r1, st1, e1⟩
  have hghl : 0 < (e1.filter isGhLiveEv).length → st1.ghLatest = st.newRelease.version := by
    intro hp
    have := gh_live_pos env st (by rw [hgh]; exact hp)
    rw [hgh] at this
    exact this
  cases r1
  · exact hghl
  · rcases hpy : makeNewPypiRelease env st1 with ⟨r2, st2, e2⟩
    have h2 : (e2.filter isGhLiveEv).length = 0 := by
      have := pypi_ghLive_zero env st1
      rw [hpy] at this
      exact this
    have hpres : st2.ghLatest = st1.ghLatest := by
      have := pypi_ghLatest_eq env st1
      rw [hpy] at this
      exact this
    cases r2 <;>
      (intro hp
       simp only [] at hp ⊢
       rw [hpy] at hp ⊢
       simp only [List.filter_append, List.length_append, h2, Nat.add_zero] at hp
       simp only []
       rw [hpres]
       exact hghl hp)

/-- The release path creates at most one live PyPi upload. -/
theorem ghThenPypi_pypiLive_le (env : BotEnv) (st : BotState) :
    (((ghThenPypi env st).2.2).filter isPypiLiveEv).length ≤ 1 := by
  unfold ghThenPypi
  rcases hgh : makeNewGithubRelease env st with ⟨r1, st1, e1⟩
  have h1 : (e1.filter isPypiLiveEv).length = 0 := by
    have := gh_pypiLive_zero env st
    rw [hgh] at this
    exact this
  cases r1
  · simp [h1]
  · rcases hpy : makeNewPypiRelease env st1 with ⟨r2, st2, e2⟩
    have h2 : (e2.filter isPypiLiveEv).length ≤ 1 := by
      have := pypi_live_le env st1
      rw [hpy] at this
      exact this
    cases r2 <;> simp [hpy, List.filter_append, h1] <;> omega

/-- When the package-index release is disabled or the target is already
bounded by the PyPi adapter state, the release path performs no live
upload. -/
theorem ghThenPypi_pypiLive_zero (env : BotEnv) (st : BotState)
    (hdone : st.newRelease.pypi = false ∨
      SemVer.ble st.newRelease.version st.pypiLatest = true) :
    (((ghThenPypi env st).2.2).filter isPypiLiveEv).length = 0 := by
  unfold ghThenPypi
  rcases hgh : makeNewGithubRelease env st with ⟨r1, st1, e1⟩
  have h1 : (e1.filter isPypiLiveEv).length = 0 := by
    have := gh_pypiLive_zero env st
    rw [hgh] at this
    exact this
  have hnr : st1.newRelease = st.newRelease := by
    have := gh_newRelease_eq env st
    rw [hgh] at this
    exact this
  have hpl : st1.pypiLatest = st.pypiLatest := by
    have := gh_pypiLatest_eq env st
    rw [hgh] at this
    exact this
  cases r1
  · exact h1
  · rcases hpy : makeNewPypiRelease env st1 with ⟨r2, st2, e2⟩
    have h2 : (e2.filter isPypiLiveEv).length = 0 := by
      have := pypi_live_zero_of_done env st1 (by rw [hnr, hpl]; exact hdone)
      rw [hpy] at this
      exact this
    cases r2 <;> simp [hpy, List.filter_append, h1, h2]

/-- A release path that created a live upload leaves the PyPi adapter
reporting the target version. -/
theorem ghThenPypi_pypiLive_pos (env : BotEnv) (st : BotState)
    (hpos : 0 < (((ghThenPypi env st).2.2).filter isPypiLiveEv).length) :
    (ghThenPypi env st).2.1.pypiLatest = st.newRelease.version := by
  revert hpos
  unfold ghThenPypi
  rcases hgh : makeNewGithubRelease env st with ⟨r1, st1, e1⟩
  have h1 : (e1.filter isPypiLiveEv).length = 0 := by
    have := gh_pypiLive_zero env st
    rw [hgh] at this
    exact this
  have hnr : st1.newRelease = st.newRelease := by
    have := gh_newRelease_eq env st
    rw [hgh] at this
    exact this
  cases r1
  · intro hp
    simp [h1] at hp
  · rcases hpy : makeNewPypiRelease env st1 with ⟨r2, st2, e2⟩
    have h2 : 0 < (e2.filter isPypiLiveEv).length →
        st2.pypiLatest = st1.newRelease.version := by
      intro hp
      have := pypi_live_pos env st1 (by rw [hpy]; exact hp)
      rw [hpy] at this
      exact this
    cases r2 <;>
      (intro hp
       simp only [] at hp ⊢
       rw [hpy] at hp ⊢
       simp only [List.filter_append, List.length_append, h1, Nat.zero_add] at hp
       simp only []
       rw [h2 hp, hnr])

/- ------------------------------------------------------------------ -/
/- Helper lemmas: which events each stage can emit                      -/
/- ------------------------------------------------------------------ -/

/-- The issue scan emits only log events. -/
theorem collectReleaseIssues_any (latest : SemVer) (issues : List Issue) (p : BotEv → Bool)
    (hi : ∀ s, p (BotEv.logInfo s) = false) (hw : ∀ s, p (BotEv.logWarning s) = false) :
    ((collectReleaseIssues latest issues).2.any p) = false := by
  simpa [collectReleaseIssues] using collectAux_any latest p hi hw issues [] []

/-- Exhaustive case analysis of find_open_release_issues. -/
theorem findOpenReleaseIssues_cases (env : BotEnv) (st : BotState) :
    (env.ghLatestRaises = true ∧
       findOpenReleaseIssues env st = (PyRes.exc, st, [])) ∨
    (env.ghLatestRaises = false ∧ env.openedIssues.isEmpty = true ∧
       findOpenReleaseIssues env st =
         (PyRes.ok false, st, [BotEv.logDebug "No more open issues found"])) ∨
    (env.ghLatestRaises = false ∧ env.openedIssues.isEmpty = false ∧
       1 < (collectReleaseIssues st.ghLatest env.openedIssues).1.length ∧
       findOpenReleaseIssues env st =
         (PyRes.ok false, st,
          (collectReleaseIssues st.ghLatest env.openedIssues).2 ++
            [BotEv.logError multipleIssuesMsg])) ∨
    (∃ v issue, env.ghLatestRaises = false ∧ env.openedIssues.isEmpty = false ∧
       (collectReleaseIssues st.ghLatest env.openedIssues).1 = [(v, issue)] ∧
       findOpenReleaseIssues env st =
         (PyRes.ok true,
          { st with newPr := { st.newPr with
              version := v, issueNumber := issue.id,
              labels := serviceLabels env.service st.newRelease.labels } },
          (collectReleaseIssues st.ghLatest env.openedIssues).2)) ∨
    (env.ghLatestRaises = false ∧ env.openedIssues.isEmpty = false ∧
       (collectReleaseIssues st.ghLatest env.openedIssues).1 = [] ∧
       findOpenReleaseIssues env st =
         (PyRes.ok false, st, (collectReleaseIssues st.ghLatest env.openedIssues).2)) := by
  cases hlr : env.ghLatestRaises
  · cases hemp : env.openedIssues.isEmpty
    · rcases hc : collectReleaseIssues st.ghLatest env.openedIssues with ⟨ris, evs⟩
      rcases ris with _ | ⟨⟨v, issue⟩, rest⟩
      · exact Or.inr (Or.inr (Or.inr (Or.inr ⟨rfl, rfl, rfl, by
          simp [findOpenReleaseIssues, hlr, hemp, hc]⟩)))
      · rcases rest with _ | ⟨q2, rest2⟩
        · exact Or.inr (Or.inr (Or.inr (Or.inl ⟨v, issue, rfl, rfl, rfl, by
            simp [findOpenReleaseIssues, hlr, hemp, hc]⟩)))
        · have hgt : 1 < ((v, issue) :: q2 :: rest2 : List (SemVer × Issue)).length := by
            simp only [List.length_cons]
            omega
          refine Or.inr (Or.inr (Or.inl ⟨rfl, rfl, hgt, ?_⟩))
          simp [findOpenReleaseIssues, hlr, hemp, hc, hgt]
    · exact Or.inr (Or.inl ⟨rfl, rfl, by simp [findOpenReleaseIssues, hlr, hemp]⟩)
  · exact Or.inl ⟨rfl, by simp [findOpenReleaseIssues, hlr]⟩

/-- find_open_release_issues emits only log events. -/
theorem findOpen_any (env : BotEnv) (st : BotState) (p : BotEv → Bool)
    (hd : ∀ s, p (BotEv.logDebug s) = false) (hi : ∀ s, p (BotEv.logInfo s) = false)
    (hw : ∀ s, p (BotEv.logWarning s) = false) (he : ∀ s, p (BotEv.logError s) = false) :
    ((findOpenReleaseIssues env st).2.2.any p) = false := by
  have hcoll := collectReleaseIssues_any st.ghLatest env.openedIssues p hi hw
  rcases findOpenReleaseIssues_cases env st with
    ⟨_, h⟩ | ⟨_, _, h⟩ | ⟨_, _, _, h⟩ | ⟨v, issue, _, _, _, h⟩ | ⟨_, _, _, h⟩ <;>
    simp [h, List.any_append, hcoll, hd, he]

/-- find_newest_release_pull_request emits only log events. -/
theorem findNewest_any (env : BotEnv) (st : BotState) (p : BotEv → Bool)
    (hd : ∀ s, p (BotEv.logDebug s) = false) (hi : ∀ s, p (BotEv.logInfo s) = false) :
    ((findNewestReleasePullRequest env st).2.2.any p) = false := by
  unfold findNewestReleasePullRequest
  cases hlr : env.ghLatestRaises
  · cases hemp : env.mergedPrs.isEmpty
    · rcases hfm : findMatchingPr st.ghLatest env.mergedPrs with _ | ⟨v, pr⟩ <;>
        simp [hlr, hemp, hfm, hd, hi]
    · simp [hlr, hemp, hd]
  · simp [hlr]

/-- make_new_github_release emits only log and Github release events. -/
theorem gh_any (env : BotEnv) (st : BotState) (p : BotEv → Bool)
    (hi : ∀ s, p (BotEv.logInfo s) = false) (he : ∀ s, p (BotEv.logError s) = false)
    (hg : ∀ v b, p (BotEv.ghRelease v b) = false) :
    ((makeNewGithubRelease env st).2.2.any p) = false := by
  rcases makeNewGithubRelease_cases env st with
    ⟨_, h⟩ | ⟨_, _, h⟩ | ⟨_, _, _, h⟩ | ⟨_, _, _, _, h⟩ | ⟨_, _, _, _, h⟩ | ⟨_, _, _, _, h⟩ <;>
    simp [h, hi, he, hg]

/-- make_new_pypi_release emits only log, upload, tag-fetch and checkout
events. -/
theorem pypi_any (env : BotEnv) (st : BotState) (p : BotEv → Bool)
    (hd : ∀ s, p (BotEv.logDebug s) = false) (hi : ∀ s, p (BotEv.logInfo s) = false)
    (he : ∀ s, p (BotEv.logError s) = false) (hu : ∀ v b, p (BotEv.pypiUpload v b) = false)
    (hft : p BotEv.gitFetchTags = false) (hco : ∀ s, p (BotEv.gitCheckout s) = false) :
    ((makeNewPypiRelease env st).2.2.any p) = false := by
  rcases makeNewPypiRelease_cases env st with
    ⟨_, h⟩ | ⟨_, _, h⟩ | ⟨_, _, _, h⟩ | ⟨_, _, _, _, h⟩ | ⟨_, _, _, _, h⟩ | ⟨_, _, _, _, h⟩ <;>
    simp [h, hd, hi, he, hu, hft, hco]

/-- The release path emits only log, Github release, upload, tag-fetch and
checkout events. -/
theorem ghThenPypi_any (env : BotEnv) (st : BotState) (p : BotEv → Bool)
    (hd : ∀ s, p (BotEv.logDebug s) = false) (hi : ∀ s, p (BotEv.logInfo s) = false)
    (he : ∀ s, p (BotEv.logError s) = false) (hg : ∀ v b, p (BotEv.ghRelease v b) = false)
    (hu : ∀ v b, p (BotEv.pypiUpload v b) = false)
    (hft : p BotEv.gitFetchTags = false) (hco : ∀ s, p (BotEv.gitCheckout s) = false) :
    ((ghThenPypi env st).2.2.any p) = false := by
  unfold ghThenPypi
  rcases hgh : makeNewGithubRelease env st with ⟨r1, st1, e1⟩
  have h1 : e1.any p = false := by
    have := gh_any env st p hi he hg
    rw [hgh] at this
    exact this
  cases r1
  · exact h1
  · rcases hpy : makeNewPypiRelease env st1 with ⟨r2, st2, e2⟩
    have h2 : e2.any p = false := by
      have := pypi_any env st1 p hd hi he hu hft hco
      rw [hpy] at this
      exact this
    cases r2 <;> simp only [] <;> rw [hpy] <;> simp [List.any_append, h1, h2]

/-- make_release_pull_request emits only log, issue-comment, issue-close
and PR-creation events. -/
theorem mrpr_any (env : BotEnv) (st : BotState) (p : BotEv → Bool)
    (hd : ∀ s, p (BotEv.logDebug s) = false) (hi : ∀ s, p (BotEv.logInfo s) = false)
    (hw : ∀ s, p (BotEv.logWarning s) = false) (he : ∀ s, p (BotEv.logError s) = false)
    (hic : ∀ n s, p (BotEv.issueComment n s) = false)
    (hcl : ∀ n, p (BotEv.issueClose n) = false)
    (hmp : p BotEv.makeReleasePr = false) :
    ((makeReleasePullRequest env st).2.2.any p) = false := by
  rcases makeReleasePullRequest_cases env st with
    ⟨_, h⟩ | ⟨_, _, h⟩ | ⟨_, _, _, h⟩ | ⟨_, _, _, _, h⟩ | ⟨_, _, _, _, h⟩ | ⟨_, _, _, _, h⟩ <;>
    cases hdr : env.dryRun <;>
    simp [h, hdr, List.any_append, hd, hi, hw, he, hic, hcl, hmp]

/-- The release stage of the first block emits only log, Github release,
upload, tag-fetch and checkout events. -/
theorem releaseStage_any (env : BotEnv) (p : BotEv → Bool)
    (hd : ∀ s, p (BotEv.logDebug s) = false) (hi : ∀ s, p (BotEv.logInfo s) = false)
    (he : ∀ s, p (BotEv.logError s) = false) (hg : ∀ v b, p (BotEv.ghRelease v b) = false)
    (hu : ∀ v b, p (BotEv.pypiUpload v b) = false)
    (hft : p BotEv.gitFetchTags = false) (hco : ∀ s, p (BotEv.gitCheckout s) = false) :
    ∀ st : BotState, ((releaseStage env st).2.any p) = false := by
  intro st
  unfold releaseStage
  rcases hfn : findNewestReleasePullRequest env st with ⟨r1, s1, e1⟩
  have h1 : e1.any p = false := by
    have := findNewest_any env st p hd hi
    rw [hfn] at this
    exact this
  rcases r1 with _ | b
  · simp [List.any_append, h1, he]
  · cases b
    · exact h1
    · rcases hgp : ghThenPypi env s1 with ⟨r2, s2, e2⟩
      have h2 : e2.any p = false := by
        have := ghThenPypi_any env s1 p hd hi he hg hu hft hco
        rw [hgp] at this
        exact this
      cases r2 <;> simp only [] <;> rw [hgp] <;> simp [List.any_append, h1, h2, he]

/-- The first guarded block emits no consolidated-comment event and in
general only events of its inner stages plus caught-exception logs. -/
theorem cycleBlock1_any (env : BotEnv) (st : BotState) (p : BotEv → Bool)
    (hd : ∀ s, p (BotEv.logDebug s) = false) (hi : ∀ s, p (BotEv.logInfo s) = false)
    (he : ∀ s, p (BotEv.logError s) = false) (hg : ∀ v b, p (BotEv.ghRelease v b) = false)
    (hu : ∀ v b, p (BotEv.pypiUpload v b) = false)
    (hft : p BotEv.gitFetchTags = false) (hco : ∀ s, p (BotEv.gitCheckout s) = false) :
    ((cycleBlock1 env st).2.any p) = false := by
  unfold cycleBlock1
  cases hlc : env.loadConfRaises <;>
    simp [loadReleaseConf, hlc, List.any_append, he,
      releaseStage_any env p hd hi he hg hu hft hco]

/-- The issue stage of the second block emits only log, label,
issue-comment, issue-close and PR-creation events. -/
theorem issueStage_any (env : BotEnv) (p : BotEv → Bool)
    (hd : ∀ s, p (BotEv.logDebug s) = false) (hi : ∀ s, p (BotEv.logInfo s) = false)
    (hw : ∀ s, p (BotEv.logWarning s) = false) (he : ∀ s, p (BotEv.logError s) = false)
    (hic : ∀ n s, p (BotEv.issueComment n s) = false)
    (hcl : ∀ n, p (BotEv.issueClose n) = false)
    (hlb : ∀ n ls, p (BotEv.addIssueLabels n ls) = false)
    (hmp : p BotEv.makeReleasePr = false) :
    ∀ st : BotState, ((issueStage env st).2.any p) = false := by
  intro st
  unfold issueStage
  rcases hfo : findOpenReleaseIssues env st with ⟨r1, s1, e1⟩
  have h1 : e1.any p = false := by
    have := findOpen_any env st p hd hi hw he
    rw [hfo] at this
    exact this
  rcases r1 with _ | b
  · simp [List.any_append, h1, he]
  · cases b
    · exact h1
    · rcases hmr : makeReleasePullRequest env s1 with ⟨r2, s2, e2⟩
      have h2 : e2.any p = false := by
        have := mrpr_any env s1 p hd hi hw he hic hcl hmp
        rw [hmr] at this
        exact this
      rcases hla : s1.newRelease.labels with _ | ls <;>
        cases r2 <;> simp only [] <;> rw [hmr] <;>
        simp [List.any_append, h1, h2, he, hlb, hla]

/-- The second guarded block emits only log, label, issue-comment,
issue-close and PR-creation events. -/
theorem cycleBlock2_any (env : BotEnv) (st : BotState) (p : BotEv → Bool)
    (hd : ∀ s, p (BotEv.logDebug s) = false) (hi : ∀ s, p (BotEv.logInfo s) = false)
    (hw : ∀ s, p (BotEv.logWarning s) = false) (he : ∀ s, p (BotEv.logError s) = false)
    (hic : ∀ n s, p (BotEv.issueComment n s) = false)
    (hcl : ∀ n, p (BotEv.issueClose n) = false)
    (hlb : ∀ n ls, p (BotEv.addIssueLabels n ls) = false)
    (hmp : p BotEv.makeReleasePr = false) :
    ((cycleBlock2 env st).2.any p) = false := by
  unfold cycleBlock2
  cases htr : st.newRelease.triggerOnIssue <;>
    simp [issueStage_any env p hd hi hw he hic hcl hlb hmp]

/- ------------------------------------------------------------------ -/
/- Claim theorems: coordination engine                                 -/
/- ------------------------------------------------------------------ -/

/-- C8: every polling cycle posts the consolidated comment exactly once
(no other prComment event occurs anywhere in the cycle trace), the posted
message is the newline-join of the comment buffer accumulated through the
two blocks, the flush and the buffer reset happen after the two blocks and
before the inter-cycle sleep, and the cycle ends with an empty buffer, so
no message is carried into a later cycle. -/
theorem claim_C8_consolidated_comment (env : BotEnv) (st : BotState) :
    (runCycle env st).1.comment = [] ∧
    ((runCycle env st).2.filter isPrCommentEv).length = 1 ∧
    (runCycle env st).2 =
      [BotEv.gitPull] ++ (cycleBlock1 env st).2 ++
      (cycleBlock2 env (cycleBlock1 env st).1).2 ++
      [BotEv.prComment (cycleTarget env st)
         (String.intercalate "\n" (cycleBuffer env st)),
       BotEv.logDebug "Done, going to sleep", BotEv.sleep] := by
  refine ⟨rfl, ?_, rfl⟩
  have h1 : ((cycleBlock1 env st).2.filter isPrCommentEv) = [] := by
    rw [List.filter_eq_nil_iff]
    intro a ha
    have hany := cycleBlock1_any env st isPrCommentEv (fun _ => rfl) (fun _ => rfl)
      (fun _ => rfl) (fun _ _ => rfl) (fun _ _ => rfl) rfl (fun _ => rfl)
    rw [List.any_eq_false] at hany
    simpa using hany a ha
  have h2 : ((cycleBlock2 env (cycleBlock1 env st).1).2.filter isPrCommentEv) = [] := by
    rw [List.filter_eq_nil_iff]
    intro a ha
    have hany := cycleBlock2_any env (cycleBlock1 env st).1 isPrCommentEv (fun _ => rfl)
      (fun _ => rfl) (fun _ => rfl) (fun _ => rfl) (fun _ _ => rfl) (fun _ => rfl)
      (fun _ _ => rfl) rfl
    rw [List.any_eq_false] at hany
    simpa using hany a ha
  simp [runCycle, List.filter_append, h1, h2, isPrCommentEv]

/-- C2: the version comparison is the idempotency guard of both adapters.
First and second conjunct: when the adapter already reports a version at
least as high as the target, the release call performs no adapter mutation,
leaves the state unchanged and only reports the release as already done.
Third conjunct: two consecutive invocations of the release path with the
same target version never produce two live Github releases nor two live
PyPi uploads.  Fourth conjunct: from any state in which both adapters
already report the target (as is the case after a fully successful
invocation), a further invocation takes the already-released branch on
both adapters and is a pure no-op apart from the two notices. -/
theorem claim_C2_idempotency_guard (env env2 : BotEnv) (st : BotState) :
    (env.ghLatestRaises = false →
      SemVer.ble st.newRelease.version st.ghLatest = true →
      makeNewGithubRelease env st =
        (PyRes.ok (some st.newRelease), st,
         [BotEv.logInfo (ghAlreadyMsg env.service st.newRelease.version)])) ∧
    (st.newRelease.pypi = true → env.pypiLatestRaises = false →
      SemVer.ble st.newRelease.version st.pypiLatest = true →
      makeNewPypiRelease env st =
        (PyRes.ok false, st,
         [BotEv.logInfo (pypiAlreadyMsg st.newRelease.version)])) ∧
    ((((ghThenPypi env st).2.2 ++ (ghThenPypi env2 (ghThenPypi env st).2.1).2.2).filter
        isGhLiveEv).length ≤ 1 ∧
     (((ghThenPypi env st).2.2 ++ (ghThenPypi env2 (ghThenPypi env st).2.1).2.2).filter
        isPypiLiveEv).length ≤ 1) ∧
    (∀ s : BotState, env2.ghLatestRaises = false → env2.pypiLatestRaises = false →
      s.newRelease.pypi = true →
      SemVer.ble s.newRelease.version s.ghLatest = true →
      SemVer.ble s.newRelease.version s.pypiLatest = true →
      ghThenPypi env2 s =
        (PyRes.ok (), s,
         [BotEv.logInfo (ghAlreadyMsg env2.service s.newRelease.version),
          BotEv.logInfo (pypiAlreadyMsg s.newRelease.version)])) := by
  refine ⟨?_, ?_, ⟨?_, ?_⟩, ?_⟩
  · intro hlr hble
    simp [makeNewGithubRelease, hlr, hble]
  · intro hf hplr hble
    simp [makeNewPypiRelease, hf, hplr, hble]
  · rcases Nat.eq_zero_or_pos (((ghThenPypi env st).2.2).filter isGhLiveEv).length with h0 | hpos
    · have h2 := ghThenPypi_ghLive_le env2 ((ghThenPypi env st).2.1)
      rw [List.filter_append, List.length_append, h0]
      omega
    · have h1 := ghThenPypi_ghLive_le env st
      have heq := ghThenPypi_ghLive_pos env st hpos
      have hnr := ghThenPypi_newRelease_eq env st
      have hz : (((ghThenPypi env2 (ghThenPypi env st).2.1).2.2).filter isGhLiveEv).length = 0 := by
        apply ghThenPypi_ghLive_zero
        rw [hnr, heq]
        exact SemVer.ble_refl _
      rw [List.filter_append, List.length_append, hz]
      omega
  · rcases Nat.eq_zero_or_pos (((ghThenPypi env st).2.2).filter isPypiLiveEv).length with h0 | hpos
    · have h2 := ghThenPypi_pypiLive_le env2 ((ghThenPypi env st).2.1)
      rw [List.filter_append, List.length_append, h0]
      omega
    · have h1 := ghThenPypi_pypiLive_le env st
      have heq := ghThenPypi_pypiLive_pos env st hpos
      have hnr := ghThenPypi_newRelease_eq env st
      have hz : (((ghThenPypi env2 (ghThenPypi env st).2.1).2.2).filter isPypiLiveEv).length = 0 := by
        apply ghThenPypi_pypiLive_zero
        refine Or.inr ?_
        rw [hnr, heq]
        exact SemVer.ble_refl _
      rw [List.filter_append, List.length_append, hz]
      omega
  · intro s h1 h2 h3 h4 h5
    have hg : makeNewGithubRelease env2 s =
        (PyRes.ok (some s.newRelease), s,
         [BotEv.logInfo (ghAlreadyMsg env2.service s.newRelease.version)]) := by
      simp [makeNewGithubRelease, h1, h4]
    have hp : makeNewPypiRelease env2 s =
        (PyRes.ok false, s, [BotEv.logInfo (pypiAlreadyMsg s.newRelease.version)]) := by
      simp [makeNewPypiRelease, h3, h2, h5]
    simp [ghThenPypi, hg, hp]

/-- Witness for C2: with both adapters reporting 1.3.0 each adapter call
takes the already-released branch, the two-invocation live-release count
stays at most one (also on a fresh 1.2.0 state where the first invocation
really releases), and the composed path is a no-op apart from the two
notices. -/
theorem claim_C2_witness :
    makeNewGithubRelease baseEnv stateIdem =
      (PyRes.ok (some stateIdem.newRelease), stateIdem,
       [BotEv.logInfo (ghAlreadyMsg baseEnv.service stateIdem.newRelease.version)]) ∧
    makeNewPypiRelease baseEnv stateIdem =
      (PyRes.ok false, stateIdem,
       [BotEv.logInfo (pypiAlreadyMsg stateIdem.newRelease.version)]) ∧
    (((ghThenPypi baseEnv stateFresh).2.2 ++
        (ghThenPypi baseEnv (ghThenPypi baseEnv stateFresh).2.1).2.2).filter
        isGhLiveEv).length ≤ 1 ∧
    ghThenPypi baseEnv stateIdem =
      (PyRes.ok (), stateIdem,
       [BotEv.logInfo (ghAlreadyMsg baseEnv.service stateIdem.newRelease.version),
        BotEv.logInfo (pypiAlreadyMsg stateIdem.newRelease.version)]) :=
  ⟨(claim_C2_idempotency_guard baseEnv baseEnv stateIdem).1 rfl (by decide),
   (claim_C2_idempotency_guard baseEnv baseEnv stateIdem).2.1 rfl rfl (by decide),
   (claim_C2_idempotency_guard baseEnv baseEnv stateFresh).2.2.1.1,
   (claim_C2_idempotency_guard baseEnv baseEnv stateIdem).2.2.2 stateIdem rfl rfl rfl
     (by decide) (by decide)⟩

/-- Counterexample to C7 as stated: with the target version already
released (the source forge reports 1.2.0, the pull-request record targets
1.2.0) make_release_pull_request fails (returns False), yet no failure
comment is posted on the issue — so a failing execution does not always
comment — and the issue is not closed. -/
theorem claim_C7_counterexample :
    (makeReleasePullRequest baseEnv stateC7).1 = PyRes.ok false ∧
    ((makeReleasePullRequest baseEnv stateC7).2.2.any isIssueCommentEv) = false ∧
    ((makeReleasePullRequest baseEnv stateC7).2.2.any isIssueCloseEv) = false := by
  decide

/-- C7 (amended): the issue is closed only on the success path, after
make_release_pr reported success — no close event ever precedes the
make_release_pr call, and an execution that does not return success closes
nothing; when the PR-creation attempt inside the guarded try raises a
ReleaseException (missing repository or a failing make_release_pr call)
the issue receives a failure comment and is never closed.  The
already-released early return and a make_release_pr call that reports
failure without raising yield False with neither comment nor close. -/
theorem claim_C7_close_only_after_success (env : BotEnv) (st : BotState) :
    ((makeReleasePullRequest env st).1 ≠ PyRes.ok true →
      ((makeReleasePullRequest env st).2.2.any isIssueCloseEv) = false) ∧
    closeOnlyAfterPr (makeReleasePullRequest env st).2.2 = true ∧
    (env.ghLatestRaises = false → (makeReleasePullRequest env st).1 = PyRes.exc →
      ((makeReleasePullRequest env st).2.2.any isIssueCommentEv) = true ∧
      ((makeReleasePullRequest env st).2.2.any isIssueCloseEv) = false) := by
  refine ⟨?_, ?_, ?_⟩
  · intro hne
    rcases makeReleasePullRequest_cases env st with
      ⟨_, h⟩ | ⟨_, _, h⟩ | ⟨_, _, _, h⟩ | ⟨_, _, _, _, h⟩ | ⟨_, _, _, _, h⟩ | ⟨_, _, _, _, h⟩
    · simp [h, isIssueCloseEv]
    · simp [h, isIssueCloseEv]
    · cases hdr : env.dryRun <;> simp [h, hdr, List.any_append, isIssueCloseEv]
    · cases hdr : env.dryRun <;> simp [h, hdr, List.any_append, isIssueCloseEv]
    · exfalso
      rw [h] at hne
      exact hne rfl
    · cases hdr : env.dryRun <;> simp [h, hdr, List.any_append, isIssueCloseEv]
  · rcases makeReleasePullRequest_cases env st with
      ⟨_, h⟩ | ⟨_, _, h⟩ | ⟨_, _, _, h⟩ | ⟨_, _, _, _, h⟩ | ⟨_, _, _, _, h⟩ | ⟨_, _, _, _, h⟩ <;>
      cases hdr : env.dryRun <;>
      simp [h, hdr, closeOnlyAfterPr]
  · intro hlr hexc
    rcases makeReleasePullRequest_cases env st with
      ⟨h1, h⟩ | ⟨_, _, h⟩ | ⟨_, _, _, h⟩ | ⟨_, _, _, _, h⟩ | ⟨_, _, _, _, h⟩ | ⟨_, _, _, _, h⟩
    · rw [hlr] at h1
      cases h1
    · rw [h] at hexc
      simp at hexc
    · cases hdr : env.dryRun <;>
        constructor <;>
        simp [h, hdr, List.any_append, isIssueCommentEv, isIssueCloseEv]
    · cases hdr : env.dryRun <;>
        constructor <;>
        simp [h, hdr, List.any_append, isIssueCommentEv, isIssueCloseEv]
    · rw [h] at hexc
      simp at hexc
    · rw [h] at hexc
      simp at hexc

/-- Witness for C7 at a concrete raising environment: the make_release_pr
call raises, the issue gets the failure comment, the trace never closes
the issue and no close precedes the PR-creation call. -/
theorem claim_C7_witness :
    ((makeReleasePullRequest envC7b stateC7b).2.2.any isIssueCloseEv) = false ∧
    closeOnlyAfterPr (makeReleasePullRequest envC7b stateC7b).2.2 = true ∧
    ((makeReleasePullRequest envC7b stateC7b).2.2.any isIssueCommentEv) = true :=
  ⟨(claim_C7_close_only_after_success envC7b stateC7b).1 (by decide),
   (claim_C7_close_only_after_success envC7b stateC7b).2.1,
   ((claim_C7_close_only_after_success envC7b stateC7b).2.2 rfl (by decide)).1⟩

/-- Counterexample to C3 as stated: two open qualifying modifiable release
issues are observed (both titled with version 1.3.0, above the latest
release 1.2.0), yet the dict keyed by version collapses them, no
multiplicity error is logged, find_open_release_issues reports success,
the second issue is promoted and the cycle proceeds to create a PR. -/
theorem claim_C3_counterexample :
    (findOpenReleaseIssues envC3 stateC3).1 = PyRes.ok true ∧
    ((findOpenReleaseIssues envC3 stateC3).2.2.any isLogErrorEv) = false ∧
    (findOpenReleaseIssues envC3 stateC3).2.1.newPr.issueNumber = 22 ∧
    ((cycleBlock2 envC3 stateC3).2.any isMakePrEv) = true := by
  decide

/-- C3 (amended): in any cycle (no merged PR pending, configuration loads,
issue triggering configured) in which the open qualifying modifiable
release issues name more than one distinct version, the coordinator logs
the multiplicity error, find_open_release_issues reports failure, and the
cycle performs no PR creation and no label application.  (Qualifying
issues that share one version collapse into a single dict entry keyed by
version and do not trigger the error, see the counterexample.) -/
theorem claim_C3_distinct_version_multiplicity (env : BotEnv) (st : BotState)
    (hlr : env.ghLatestRaises = false)
    (hconf : env.loadConfRaises = false)
    (htr : env.confTrigger = true)
    (hprs : env.mergedPrs = [])
    (hlen : 1 < (collectReleaseIssues st.ghLatest env.openedIssues).1.length) :
    findOpenReleaseIssues env st =
      (PyRes.ok false, st,
       (collectReleaseIssues st.ghLatest env.openedIssues).2 ++
         [BotEv.logError multipleIssuesMsg]) ∧
    BotEv.logError multipleIssuesMsg ∈ (runCycle env st).2 ∧
    ((runCycle env st).2.any isMakePrEv) = false ∧
    ((runCycle env st).2.any isAddLabelsEv) = false := by
  have hemp : env.openedIssues.isEmpty = false := by
    cases hv : env.openedIssues.isEmpty
    · rfl
    · exfalso
      rw [List.isEmpty_iff] at hv
      rw [hv] at hlen
      simp [collectReleaseIssues, collectAux] at hlen
  have key : ∀ s : BotState, s.ghLatest = st.ghLatest →
      findOpenReleaseIssues env s =
        (PyRes.ok false, s,
         (collectReleaseIssues st.ghLatest env.openedIssues).2 ++
           [BotEv.logError multipleIssuesMsg]) := by
    intro s hs
    rcases findOpenReleaseIssues_cases env s with
      ⟨h1, _⟩ | ⟨_, h2, _⟩ | ⟨_, _, _, h⟩ | ⟨v, issue, _, _, hone, _⟩ | ⟨_, _, hzero, _⟩
    · rw [hlr] at h1
      cases h1
    · rw [hemp] at h2
      cases h2
    · rw [hs] at h
      exact h
    · exfalso
      rw [hs] at hone
      rw [hone] at hlen
      simp at hlen
    · exfalso
      rw [hs] at hzero
      rw [hzero] at hlen
      simp at hlen
  have hfind := key st rfl
  have hblk1 : cycleBlock1 env st =
      ({ st with newRelease := { st.newRelease with
           pypi := env.confPypi, triggerOnIssue := env.confTrigger,
           labels := env.confLabels } },
       [BotEv.logDebug "No merged release PR found"]) := by
    simp [cycleBlock1, loadReleaseConf, hconf, releaseStage,
      findNewestReleasePullRequest, hlr, hprs]
  have hfind1 := key (cycleBlock1 env st).1 (by rw [hblk1])
  have htrig : (cycleBlock1 env st).1.newRelease.triggerOnIssue = true := by
    rw [hblk1]
    simp [htr]
  have hblk2 : cycleBlock2 env (cycleBlock1 env st).1 =
      ((cycleBlock1 env st).1,
       (collectReleaseIssues st.ghLatest env.openedIssues).2 ++
         [BotEv.logError multipleIssuesMsg]) := by
    simp [cycleBlock2, htrig, issueStage, hfind1]
  have hcoll_mp : ((collectReleaseIssues st.ghLatest env.openedIssues).2.any isMakePrEv) = false :=
    collectReleaseIssues_any _ _ _ (fun _ => rfl) (fun _ => rfl)
  have hcoll_lb :
      ((collectReleaseIssues st.ghLatest env.openedIssues).2.any isAddLabelsEv) = false :=
    collectReleaseIssues_any _ _ _ (fun _ => rfl) (fun _ => rfl)
  refine ⟨hfind, ?_, ?_, ?_⟩
  · simp only [runCycle]
    rw [hblk2]
    simp
  · simp only [runCycle]
    rw [hblk2]
    simp [hblk1, List.any_append, hcoll_mp, isMakePrEv]
  · simp only [runCycle]
    rw [hblk2]
    simp [hblk1, List.any_append, hcoll_lb, isAddLabelsEv]

/-- Witness for the amended C3 at a concrete cycle with two open
modifiable issues naming 2.0.0 and 2.1.0 above the latest release
1.2.0. -/
theorem claim_C3_witness :
    findOpenReleaseIssues envC3b baseState =
      (PyRes.ok false, baseState,
       (collectReleaseIssues baseState.ghLatest envC3b.openedIssues).2 ++
         [BotEv.logError multipleIssuesMsg]) ∧
    BotEv.logError multipleIssuesMsg ∈ (runCycle envC3b baseState).2 ∧
    ((runCycle envC3b baseState).2.any isMakePrEv) = false ∧
    ((runCycle envC3b baseState).2.any isAddLabelsEv) = false :=
  claim_C3_distinct_version_multiplicity envC3b baseState rfl rfl rfl rfl (by decide)

/-- C10: issues the bot may not modify are excluded from consideration —
the release_issues dict only ever holds modifiable issues — and in a cycle
observing two qualifying open issues of which only the second is
modifiable, find_open_release_issues logs the permission warning, reports
success without any multiplicity error, and promotes the modifiable
issue. -/
theorem claim_C10_permission_excluded (env : BotEnv) (st : BotState)
    (i1 i2 : Issue) (v1 v2 : SemVer)
    (hlr : env.ghLatestRaises = false)
    (hiss : env.openedIssues = [i1, i2])
    (ht1 : i1.titleVersion = some v1) (hgt1 : SemVer.blt st.ghLatest v1 = true)
    (hc1 : i1.botCanClose = false)
    (ht2 : i2.titleVersion = some v2) (hgt2 : SemVer.blt st.ghLatest v2 = true)
    (hc2 : i2.botCanClose = true) :
    (∀ (latest : SemVer) (issues : List Issue) (q : SemVer × Issue),
        q ∈ (collectReleaseIssues latest issues).1 → q.2.botCanClose = true) ∧
    findOpenReleaseIssues env st =
      (PyRes.ok true,
       { st with newPr := { st.newPr with
           version := v2, issueNumber := i2.id,
           labels := serviceLabels env.service st.newRelease.labels } },
       [BotEv.logWarning noPermissionMsg, BotEv.logInfo (foundIssueMsg v2)]) := by
  constructor
  · intro latest issues q hq
    exact collectAux_closeable latest issues [] [] (by simp) q hq
  · have hcoll : collectReleaseIssues st.ghLatest env.openedIssues =
        ([(v2, i2)], [BotEv.logWarning noPermissionMsg, BotEv.logInfo (foundIssueMsg v2)]) := by
      simp [hiss, collectReleaseIssues, collectAux, processVersionFromTitle,
        ht1, ht2, hgt1, hgt2, hc1, hc2, upsertIssue]
    have hne : env.openedIssues.isEmpty = false := by
      rw [hiss]
      rfl
    simp [findOpenReleaseIssues, hlr, hne, hcoll]

/-- Witness for C10: the concrete cycle with the unmodifiable issue 31
(version 1.3.0) and the modifiable issue 32 (version 1.4.0) promotes issue
32 and logs the warning. -/
theorem claim_C10_witness :
    findOpenReleaseIssues envC10 baseState =
      (PyRes.ok true,
       { baseState with newPr := { baseState.newPr with
           version := ⟨1, 4, 0⟩, issueNumber := issuePerm.id,
           labels := serviceLabels envC10.service baseState.newRelease.labels } },
       [BotEv.logWarning noPermissionMsg, BotEv.logInfo (foundIssueMsg ⟨1, 4, 0⟩)]) :=
  (claim_C10_permission_excluded envC10 baseState issueNoPerm issuePerm ⟨1, 3, 0⟩ ⟨1, 4, 0⟩
    rfl rfl rfl (by decide) rfl rfl (by decide) rfl).2

/-- Counterexample to C1 as stated: in a concrete cycle that finds the
merged release PR for 1.3.0, the Github release step raises a
ReleaseException; the cycle attempts the Github release, logs the error,
and never attempts the PyPi release (no upload, tag fetch or checkout
happens), although the PyPi release is enabled and outstanding. -/
theorem claim_C1_counterexample :
    ((runCycle envC1 baseState).2.any isGhAttemptEv) = true ∧
    ((runCycle envC1 baseState).2.any isPypiPathEv) = false ∧
    ((runCycle envC1 baseState).2.any isLogErrorEv) = true := by
  decide

/-- C1 (amended): in a cycle in which a merged release PR is found and the
Github release step fails by raising a ReleaseException, the PyPi release
is NOT attempted in that same cycle; the exception is caught at the cycle
level (an error is logged) and the cycle still completes by posting its
consolidated comment, so a later cycle can retry.  (The in-cycle
decoupling of the code covers only the non-raising outcomes: the comment
in releasebot.py lines 288 to 290 refers to a Github release already done
in an earlier iteration, which makes the current call take the
already-released branch and still reach the PyPi release.) -/
theorem claim_C1_exception_skips_pypi (env : BotEnv) (st : BotState)
    (v : SemVer) (pr : MergedPr)
    (hconf : env.loadConfRaises = false)
    (hlr : env.ghLatestRaises = false)
    (hfind : findMatchingPr st.ghLatest env.mergedPrs = some (v, pr))
    (hdry : env.dryRun = false)
    (hgh : env.ghMakeNewRelease = PyRes.exc) :
    ((runCycle env st).2.any isPypiPathEv) = false ∧
    ((runCycle env st).2.any isLogErrorEv) = true ∧
    ((runCycle env st).2.any isPrCommentEv) = true := by
  have hne : env.mergedPrs ≠ [] := by
    intro h
    rw [h] at hfind
    simp [findMatchingPr] at hfind
  have hemp : env.mergedPrs.isEmpty = false := by
    cases hv : env.mergedPrs.isEmpty
    · rfl
    · exact absurd (List.isEmpty_iff.mp hv) hne
  have hble : SemVer.ble v st.ghLatest = false :=
    SemVer.ble_false_of_blt _ _ (findMatchingPr_blt _ _ _ _ hfind)
  have htr1 : (cycleBlock1 env st).2 =
      [BotEv.logInfo ("Found merged release PR with version " ++ verStr v),
       BotEv.ghRelease v false, BotEv.logError (ghFailMsg env.service v),
       BotEv.logError "ReleaseException"] := by
    simp [cycleBlock1, loadReleaseConf, hconf, releaseStage,
      findNewestReleasePullRequest, hlr, hemp, hfind, ghThenPypi,
      makeNewGithubRelease, hdry, hgh, hble]
  have hb2 : ((cycleBlock2 env (cycleBlock1 env st).1).2.any isPypiPathEv) = false :=
    cycleBlock2_any env _ isPypiPathEv (fun _ => rfl) (fun _ => rfl) (fun _ => rfl)
      (fun _ => rfl) (fun _ _ => rfl) (fun _ => rfl) (fun _ _ => rfl) rfl
  refine ⟨?_, ?_, ?_⟩
  · simp [runCycle, htr1, List.any_append, hb2, isPypiPathEv]
  · simp [runCycle, htr1, List.any_append, isLogErrorEv]
  · simp [runCycle, htr1, List.any_append, isPrCommentEv]

/-- Witness for the amended C1 at the concrete raising environment. -/
theorem claim_C1_witness :
    ((runCycle envC1 baseState).2.any isPypiPathEv) = false ∧
    ((runCycle envC1 baseState).2.any isLogErrorEv) = true ∧
    ((runCycle envC1 baseState).2.any isPrCommentEv) = true :=
  claim_C1_exception_skips_pypi envC1 baseState ⟨1, 3, 0⟩
    { id := 7, titleVersion := some ⟨1, 3, 0⟩, author := "alice" }
    rfl rfl (by decide) rfl rfl
